import Mathlib

/-!
# Orange: the sync and user-management handlers, and the database connector

A shallow embedding of `internal/handler/sync.go`, `internal/handler/user.go`
and `internal/database/database.go`, with the parts of `strconv`, `fmt` and the
request binding they rely on. The sync service itself (`internal/service`) is
not among the sources; the handlers are verified against every service, and
`SyncTables` is in addition modelled from the design document.

Conventions of the embedding.

* A Go `string` is a Lean `String`; a Go `int` is an `Int` (the programs below
  never do arithmetic on it, except `strconv`, which is modelled with its
  explicit 64-bit bounds).
* A Go `error` is the `String` returned by its `Error()` method; a nil error is
  `none`.
* A handler is a function from the process environment, the services it holds
  and the request to the response it writes together with the ordered list of
  service calls it made.
-/

namespace Orange

/-! ## The JSON envelope written with `c.JSON(status, gin.H{...})` -/

/-- A scalar stored under a key of the inner `gin.H` built by `GetConfig`. -/
inductive Prim where
  | int (n : Int)
  | str (s : String)
  deriving DecidableEq, Repr

/-- A value stored under a key of a top-level `gin.H`. `R` is the element type
of the result slice returned by the sync service. -/
inductive HVal (R : Type) where
  | int (n : Int)
  | str (s : String)
  | results (rs : List R)
  | h (fields : List (String × Prim))
  deriving DecidableEq, Repr

/-- `gin.H` is `map[string]any`; it is kept as an association list and only
ever read through `List.lookup`. -/
abbrev H (R : Type) := List (String × HVal R)

def StatusOK : Nat := 200

def StatusBadRequest : Nat := 400

/-! ## `service.SyncConfig` and the sync service as seen from the handler -/

/-- The struct literal `service.SyncConfig{...}` built by the three handlers. -/
structure SyncConfig where
  DBType : String
  Host : String
  Port : Int
  User : String
  Password : String
  DBName : String
  SSLMode : String
  deriving DecidableEq, Repr

/-- The three methods of `*service.SyncService` that the handlers call. The
service lives outside the handler package, so the handler is verified against
every possible service. A method returning `(results, err)` may return both. -/
structure SyncService (R : Type) where
  TestConnection : SyncConfig → Option String
  CompareData : SyncConfig → List R × Option String
  SyncTables : SyncConfig → List String → List R × Option String

/-- One call made on the sync service, with its arguments. -/
inductive SyncCall where
  | TestConnection (cfg : SyncConfig)
  | CompareData (cfg : SyncConfig)
  | SyncTables (cfg : SyncConfig) (tables : List String)
  deriving DecidableEq, Repr

/-- What a handler of `SyncHandler` did: the single `c.JSON` it wrote and the
service calls it made, in order. -/
structure Outcome (R : Type) where
  status : Nat
  body : H R
  calls : List SyncCall

/-- The process state a handler can read: the environment (`os.Getenv`, which
returns the empty string for an unset variable) and the handler's service. -/
structure World (R : Type) where
  getenv : String → String
  syncService : SyncService R

/-! ## Request structs and their `binding` tags -/

/-- `TestConnectionRequest`, after `encoding/json` decoded the body: a key that
is absent from the body leaves its field at the zero value. -/
structure TestConnectionRequest where
  DBType : String
  Host : String
  Port : Int
  User : String
  Password : String
  DBName : String
  SSLMode : String
  deriving DecidableEq, Repr

/-- `ExecuteRequest`; `Tables` is a Go slice, `none` being the nil slice that an
absent (or `null`) key leaves behind. -/
structure ExecuteRequest where
  DBType : String
  Host : String
  Port : Int
  User : String
  Password : String
  DBName : String
  SSLMode : String
  Tables : Option (List String)
  deriving DecidableEq, Repr

/-- The `required` tag on a string field: the field is not the zero value. -/
def requiredString (s : String) : Bool := s != ""

/-- The `required` tag on an int field. -/
def requiredInt (n : Int) : Bool := n != 0

/-- The `required` tag on a slice field: the slice is not nil (an empty,
non-nil slice passes). -/
def requiredSlice {α : Type} (s : Option (List α)) : Bool := s.isSome

/-- The fields of a `TestConnectionRequest` whose `binding` tag fails, each
with the failing tag, in declaration order. `SSLMode` carries no tag. -/
def TestConnectionRequest.failed (r : TestConnectionRequest) : List (String × String) :=
  (if requiredString r.DBType then [] else [("DBType", "required")]) ++
  (if requiredString r.Host then [] else [("Host", "required")]) ++
  (if requiredInt r.Port then [] else [("Port", "required")]) ++
  (if requiredString r.User then [] else [("User", "required")]) ++
  (if requiredString r.Password then [] else [("Password", "required")]) ++
  (if requiredString r.DBName then [] else [("DBName", "required")])

/-- The fields of an `ExecuteRequest` whose `binding` tag fails. -/
def ExecuteRequest.failed (r : ExecuteRequest) : List (String × String) :=
  (if requiredString r.DBType then [] else [("DBType", "required")]) ++
  (if requiredString r.Host then [] else [("Host", "required")]) ++
  (if requiredInt r.Port then [] else [("Port", "required")]) ++
  (if requiredString r.User then [] else [("User", "required")]) ++
  (if requiredString r.Password then [] else [("Password", "required")]) ++
  (if requiredString r.DBName then [] else [("DBName", "required")]) ++
  (if requiredSlice r.Tables then [] else [("Tables", "required")])

/-- The text of the validator's error for the failed fields of struct `name`:
one line per field, naming the tag that failed. -/
def validationError (name : String) (fails : List (String × String)) : String :=
  "\n".intercalate (fails.map fun f =>
    "Key: '" ++ name ++ "." ++ f.1 ++ "' Error:Field validation for '" ++ f.1 ++
      "' failed on the '" ++ f.2 ++ "' tag")

/-- `c.ShouldBindJSON(&req)`: the body is decoded (the decoder's outcome is the
argument: its error, or the populated struct), then the struct is validated
against its tags. Returns the bound struct or the error. -/
def ShouldBindJSON {α : Type} (name : String) (failed : α → List (String × String))
    (decoded : Except String α) : Except String α :=
  match decoded with
  | .error e => .error e
  | .ok req =>
    if failed req = [] then .ok req
    else .error (validationError name (failed req))

/-! ## `SyncHandler` -/

/-- The descriptor built by `TestConnection` and `Compare`. -/
def TestConnectionRequest.toConfig (req : TestConnectionRequest) : SyncConfig :=
  { DBType := req.DBType, Host := req.Host, Port := req.Port, User := req.User,
    Password := req.Password, DBName := req.DBName, SSLMode := req.SSLMode }

/-- The descriptor built by `Execute`. -/
def ExecuteRequest.toConfig (req : ExecuteRequest) : SyncConfig :=
  { DBType := req.DBType, Host := req.Host, Port := req.Port, User := req.User,
    Password := req.Password, DBName := req.DBName, SSLMode := req.SSLMode }

/-- `SyncHandler.TestConnection`. -/
def TestConnection {R : Type} (w : World R) (body : Except String TestConnectionRequest) :
    Outcome R :=
  match ShouldBindJSON "TestConnectionRequest" TestConnectionRequest.failed body with
  | .error err =>
    { status := StatusBadRequest
      body := [("code", .int 1), ("message", .str ("参数错误: " ++ err))]
      calls := [] }
  | .ok req =>
    let cfg := req.toConfig
    match w.syncService.TestConnection cfg with
    | some err =>
      { status := StatusOK
        body := [("code", .int 1), ("message", .str err)]
        calls := [.TestConnection cfg] }
    | none =>
      { status := StatusOK
        body := [("code", .int 0), ("message", .str "连接成功")]
        calls := [.TestConnection cfg] }

/-- `SyncHandler.Compare`. -/
def Compare {R : Type} (w : World R) (body : Except String TestConnectionRequest) :
    Outcome R :=
  match ShouldBindJSON "TestConnectionRequest" TestConnectionRequest.failed body with
  | .error err =>
    { status := StatusBadRequest
      body := [("code", .int 1), ("message", .str ("参数错误: " ++ err))]
      calls := [] }
  | .ok req =>
    let cfg := req.toConfig
    match w.syncService.CompareData cfg with
    | (_, some err) =>
      { status := StatusOK
        body := [("code", .int 1), ("message", .str err)]
        calls := [.CompareData cfg] }
    | (results, none) =>
      { status := StatusOK
        body := [("code", .int 0), ("data", .results results)]
        calls := [.CompareData cfg] }

/-- `SyncHandler.Execute`. After a successful bind `req.Tables` is not nil. -/
def Execute {R : Type} (w : World R) (body : Except String ExecuteRequest) : Outcome R :=
  match ShouldBindJSON "ExecuteRequest" ExecuteRequest.failed body with
  | .error err =>
    { status := StatusBadRequest
      body := [("code", .int 1), ("message", .str ("参数错误: " ++ err))]
      calls := [] }
  | .ok req =>
    let cfg := req.toConfig
    let tables := req.Tables.getD []
    match w.syncService.SyncTables cfg tables with
    | (_, some err) =>
      { status := StatusOK
        body := [("code", .int 1), ("message", .str err)]
        calls := [.SyncTables cfg tables] }
    | (results, none) =>
      { status := StatusOK
        body := [("code", .int 0), ("data", .results results), ("message", .str "同步完成")]
        calls := [.SyncTables cfg tables] }

/-- The descriptor carried by a service call. -/
def SyncCall.cfg : SyncCall → SyncConfig
  | .TestConnection cfg => cfg
  | .CompareData cfg => cfg
  | .SyncTables cfg _ => cfg

/-- A descriptor in which everything but `SSLMode` is set. -/
def SyncConfig.complete (cfg : SyncConfig) : Prop :=
  cfg.DBType ≠ "" ∧ cfg.Host ≠ "" ∧ cfg.Port ≠ 0 ∧ cfg.User ≠ "" ∧
    cfg.Password ≠ "" ∧ cfg.DBName ≠ ""

instance (cfg : SyncConfig) : Decidable cfg.complete := by
  unfold SyncConfig.complete
  infer_instance

/-! ## `strconv`: `ParseUint`, `ParseInt` and `Atoi` in base 10 on a 64-bit build

The Go functions range over the bytes of the string. Every byte of the UTF-8
encoding of a non-ASCII character is at least `0x80`, which none of the tests
below accepts, so ranging over characters rejects at the same place; lengths
are byte lengths (`String.utf8ByteSize`). -/

/-- `strconv.IntSize` on a 64-bit build. -/
def intSize : Nat := 64

/-- The two `Err` values a `*strconv.NumError` can carry. -/
inductive NumError where
  | ErrSyntax
  | ErrRange
  deriving DecidableEq, Repr

/-- `'0' <= c && c <= '9'`. -/
def isDigit (c : Char) : Bool := 48 ≤ c.toNat && c.toNat ≤ 57

/-- `lower(c)`, that is `c | ('x' - 'X')`. -/
def lower (c : Char) : Nat := c.toNat ||| 32

/-- The digit switch of `ParseUint` (the underscore case needs base 0 and is
never taken): the value of the digit, `none` for the `default` branch. -/
def digitOf (c : Char) : Option Nat :=
  if isDigit c then some (c.toNat - 48)
  else if 97 ≤ lower c && lower c ≤ 122 then some (lower c - 97 + 10)
  else none

/-- The loop of `ParseUint` for base 10, `n` being the `uint64` accumulator. -/
def parseUintLoop (cutoff maxVal : Nat) : List Char → Nat → Nat × Option NumError
  | [], n => (n, none)
  | c :: rest, n =>
    match digitOf c with
    | none => (0, some .ErrSyntax)
    | some d =>
      if d ≥ 10 then (0, some .ErrSyntax)
      else if n ≥ cutoff then (maxVal, some .ErrRange)
      else
        let n10 := n * 10 % 2 ^ 64
        let n1 := (n10 + d) % 2 ^ 64
        if n1 < n10 || n1 > maxVal then (maxVal, some .ErrRange)
        else parseUintLoop cutoff maxVal rest n1

/-- `strconv.ParseUint(s, 10, bitSize)` for `bitSize` 0 or 64. -/
def ParseUint (s : List Char) : Nat × Option NumError :=
  if s = [] then (0, some .ErrSyntax)
  else parseUintLoop ((2 ^ 64 - 1) / 10 + 1) (2 ^ 64 - 1) s 0

/-- `strconv.ParseInt(s, 10, bitSize)` for `bitSize` 0 or 64. -/
def ParseInt (s : String) : Int × Option NumError :=
  match s.data with
  | [] => (0, some .ErrSyntax)
  | c :: rest =>
    let neg := c == '-'
    let digits := if c == '+' || c == '-' then rest else c :: rest
    match ParseUint digits with
    | (_, some .ErrSyntax) => (0, some .ErrSyntax)
    | (un, _) =>
      let cutoff : Nat := 2 ^ (intSize - 1)
      if !neg && un ≥ cutoff then ((cutoff : Int) - 1, some .ErrRange)
      else if neg && un > cutoff then (-(cutoff : Int), some .ErrRange)
      else (if neg then -(un : Int) else (un : Int), none)

/-- The loop of the fast path of `Atoi`: fewer than 19 digits cannot overflow
an `int`. -/
def atoiLoop : List Char → Nat → Option Nat
  | [], n => some n
  | ch :: rest, n =>
    if isDigit ch then atoiLoop rest (n * 10 + (ch.toNat - 48)) else none

/-- `strconv.Atoi`. -/
def Atoi (s : String) : Int × Option NumError :=
  let sLen := s.utf8ByteSize
  if 0 < sLen && sLen < 19 then
    match s.data with
    | [] => (0, some .ErrSyntax)
    | c :: rest =>
      let signed := c == '-' || c == '+'
      let digits := if signed then rest else c :: rest
      if signed && digits.length < 1 then (0, some .ErrSyntax)
      else
        match atoiLoop digits 0 with
        | none => (0, some .ErrSyntax)
        | some n => (if c == '-' then -(n : Int) else (n : Int), none)
  else ParseInt s

/-- `SyncHandler.GetConfig`; the error of `Atoi` is discarded. -/
def GetConfig {R : Type} (w : World R) : Outcome R :=
  let port := (Atoi (w.getenv "SYNC_DB_PORT")).1
  let port := if port = 0 then 5432 else port
  let config : List (String × Prim) :=
    [ ("db_type", .str (w.getenv "SYNC_DB_TYPE")),
      ("host", .str (w.getenv "SYNC_DB_HOST")),
      ("port", .int port),
      ("user", .str (w.getenv "SYNC_DB_USER")),
      ("password", .str (w.getenv "SYNC_DB_PASSWORD")),
      ("db_name", .str (w.getenv "SYNC_DB_NAME")),
      ("ssl_mode", .str (w.getenv "SYNC_SSL_MODE")) ]
  { status := StatusOK, body := [("code", .int 0), ("data", .h config)], calls := [] }

/-! ## `fmt.Sprintf` / `fmt.Errorf` for the verbs the program uses -/

/-- An operand of a format call. -/
inductive FmtArg where
  | str (s : String)
  | int (n : Int)
  | err (msg : String)

/-- The verb `%d` on an `int`: sign and decimal digits. -/
def formatInt (n : Int) : String :=
  if n < 0 then "-" ++ Nat.repr n.natAbs else Nat.repr n.natAbs

/-- The formatting loop: `%s` prints a string operand, `%d` an integer in
decimal, `%w` an error's message; any other character is copied. Every format
call of the program gives each verb an operand of its type, the only case
modelled. -/
def sprintfAux : List Char → List FmtArg → List Char
  | [], _ => []
  | '%' :: 's' :: rest, .str s :: args => s.data ++ sprintfAux rest args
  | '%' :: 'd' :: rest, .int n :: args => (formatInt n).data ++ sprintfAux rest args
  | '%' :: 'w' :: rest, .err e :: args => e.data ++ sprintfAux rest args
  | c :: rest, args => c :: sprintfAux rest args

/-- `fmt.Sprintf(format, args...)`. -/
def Sprintf (format : String) (args : List FmtArg) : String :=
  ⟨sprintfAux format.data args⟩

/-! ## `internal/database` -/

/-- Modelled from the spec: `config.Config`, declared in the absent
`internal/config`; these are the fields `internal/database` reads, with the
types its format verbs give them. -/
structure Config where
  DBType : String
  DBAutoCreate : Bool
  DBUser : String
  DBPassword : String
  DBHost : String
  DBPort : Int
  DBName : String
  DBSSLMode : String
  DBPath : String
  deriving DecidableEq, Repr

/-- The `gorm.Dialector` chosen by `initDB`, with the string it was opened on. -/
inductive Dialector where
  | mysql (dsn : String)
  | postgres (dsn : String)
  | sqlite (path : String)
  deriving DecidableEq, Repr

/-- The database drivers. Within one run no operation is repeated on the same
arguments, so a function of the arguments covers every behaviour of a driver. -/
structure Drivers where
  sqlOpen : String → String → Option String
  exec : String → String → String → Option String
  queryExists : String → String → String → Except String Bool
  gormOpen : Dialector → Option String

/-- The `dsn` of `ensureMySQLDatabase`. -/
def ensureMySQLDSN (cfg : Config) : String :=
  Sprintf "%s:%s@tcp(%s:%d)/?charset=utf8mb4&parseTime=True&loc=Local"
    [.str cfg.DBUser, .str cfg.DBPassword, .str cfg.DBHost, .int cfg.DBPort]

/-- `ensureMySQLDatabase`. -/
def ensureMySQLDatabase (d : Drivers) (cfg : Config) : Option String :=
  let dsn := ensureMySQLDSN cfg
  match d.sqlOpen "mysql" dsn with
  | some err => some err
  | none =>
    let createSQL := Sprintf
      "CREATE DATABASE IF NOT EXISTS `%s` CHARACTER SET utf8mb4 COLLATE utf8mb4_unicode_ci"
      [.str cfg.DBName]
    match d.exec "mysql" dsn createSQL with
    | some err => some (Sprintf "failed to create database: %w" [.err err])
    | none => none

/-- The `dsn` of `ensurePostgresDatabase`. -/
def ensurePostgresDSN (cfg : Config) : String :=
  Sprintf "host=%s port=%d user=%s password=%s dbname=postgres sslmode=%s"
    [.str cfg.DBHost, .int cfg.DBPort, .str cfg.DBUser, .str cfg.DBPassword,
     .str cfg.DBSSLMode]

/-- `ensurePostgresDatabase`. -/
def ensurePostgresDatabase (d : Drivers) (cfg : Config) : Option String :=
  let dsn := ensurePostgresDSN cfg
  match d.sqlOpen "pgx" dsn with
  | some err => some err
  | none =>
    let checkSQL := Sprintf
      "SELECT EXISTS(SELECT 1 FROM pg_database WHERE datname = '%s')" [.str cfg.DBName]
    match d.queryExists "pgx" dsn checkSQL with
    | .error err => some (Sprintf "failed to check database existence: %w" [.err err])
    | .ok false =>
      let createSQL := Sprintf "CREATE DATABASE %s WITH ENCODING 'UTF8'" [.str cfg.DBName]
      match d.exec "pgx" dsn createSQL with
      | some err => some (Sprintf "failed to create database: %w" [.err err])
      | none => none
    | .ok true => none

/-- The `dsn` built in the `"mysql"` case of `initDB`. -/
def mysqlDSN (cfg : Config) : String :=
  Sprintf "%s:%s@tcp(%s:%d)/%s?charset=utf8mb4&parseTime=True&loc=Local"
    [.str cfg.DBUser, .str cfg.DBPassword, .str cfg.DBHost, .int cfg.DBPort,
     .str cfg.DBName]

/-- The `dsn` built in the `"postgres"` case of `initDB`. -/
def postgresDSN (cfg : Config) : String :=
  Sprintf "host=%s port=%d user=%s password=%s dbname=%s sslmode=%s TimeZone=Asia/Shanghai"
    [.str cfg.DBHost, .int cfg.DBPort, .str cfg.DBUser, .str cfg.DBPassword,
     .str cfg.DBName, .str cfg.DBSSLMode]

/-- `gorm.Open(dialector, ...)` at the end of `initDB`. -/
def openDialector (d : Drivers) (dialector : Dialector) : Except String Dialector :=
  match d.gormOpen dialector with
  | some err => .error err
  | none => .ok dialector

/-- `initDB`: the dialector the connection was opened on, or the error. -/
def initDB (d : Drivers) (cfg : Config) : Except String Dialector :=
  if cfg.DBType = "mysql" then
    match (if cfg.DBAutoCreate then ensureMySQLDatabase d cfg else none) with
    | some err => .error (Sprintf "failed to ensure MySQL database: %w" [.err err])
    | none => openDialector d (.mysql (mysqlDSN cfg))
  else if cfg.DBType = "postgres" then
    match (if cfg.DBAutoCreate then ensurePostgresDatabase d cfg else none) with
    | some err => .error (Sprintf "failed to ensure PostgreSQL database: %w" [.err err])
    | none => openDialector d (.postgres (postgresDSN cfg))
  else openDialector d (.sqlite cfg.DBPath)

/-! ## `internal/dto` and `UserHandler` -/

/-- `dto.CreateUserRequest`. -/
structure CreateUserRequest where
  Username : String
  Name : String
  Email : String
  Phone : String
  Password : String
  Role : String
  deriving DecidableEq, Repr

/-- `dto.UpdateUserRequest`. -/
structure UpdateUserRequest where
  Name : String
  Email : String
  Phone : String
  Department : String
  Position : String
  Role : String
  Status : Int
  deriving DecidableEq, Repr

/-- `dto.ResetPasswordRequest`. -/
structure ResetPasswordRequest where
  NewPassword : String
  deriving DecidableEq, Repr

/-- The tags `required,min=6` on a string field: the first tag that fails, the
length being counted in characters. -/
def requiredMin6 (s : String) : Option String :=
  if !requiredString s then some "required"
  else if s.length < 6 then some "min"
  else none

/-- The fields of a `CreateUserRequest` whose `binding` tag fails. -/
def CreateUserRequest.failed (r : CreateUserRequest) : List (String × String) :=
  (if requiredString r.Username then [] else [("Username", "required")]) ++
  (if requiredString r.Name then [] else [("Name", "required")]) ++
  (match requiredMin6 r.Password with
   | some tag => [("Password", tag)]
   | none => [])

/-- `UpdateUserRequest` carries no `binding` tag. -/
def UpdateUserRequest.failed (_r : UpdateUserRequest) : List (String × String) := []

/-- The fields of a `ResetPasswordRequest` whose `binding` tag fails. -/
def ResetPasswordRequest.failed (r : ResetPasswordRequest) : List (String × String) :=
  match requiredMin6 r.NewPassword with
  | some tag => [("NewPassword", tag)]
  | none => []

/-- The methods of `*service.AuthService` that `UserHandler` calls; `P` is the
page type returned by `ListUsers`. -/
structure AuthService (P : Type) where
  ListUsers : Int → Int → String → P × Option String
  CreateUser : CreateUserRequest → Option String
  UpdateUser : Int → UpdateUserRequest → Option String
  DeleteUser : Int → Option String
  ResetPassword : Int → String → Option String

/-- One call made on the auth service, with its arguments. -/
inductive AuthCall where
  | ListUsers (page pageSize : Int) (keyword : String)
  | CreateUser (req : CreateUserRequest)
  | UpdateUser (id : Int) (req : UpdateUserRequest)
  | DeleteUser (id : Int)
  | ResetPassword (id : Int) (newPassword : String)
  deriving DecidableEq, Repr

/-- The error codes of package `response` that `UserHandler` names. -/
inductive ResponseCode where
  | CodeForbidden
  deriving DecidableEq, Repr

/-- One call on package `response`, which writes the reply. -/
inductive Response (P : Type) where
  | Error (code : ResponseCode) (msg : String)
  | ParamError (msg : String)
  | InternalError (msg : String)
  | Success (data : P)
  | SuccessWithMessage (msg : String) (data : Option P)
  deriving DecidableEq, Repr

/-- What `UserHandler` reads from a `*gin.Context`: the role and user id stored
by the auth middleware (`middleware.GetRole`, `middleware.GetUserID`), the
query string, the path parameters and the decoded body. -/
structure Context (B : Type) where
  role : String
  userID : Int
  query : String → Option String
  param : String → String
  body : Except String B

/-- `c.DefaultQuery(key, defaultValue)`. -/
def Context.DefaultQuery {B : Type} (c : Context B) (key defaultValue : String) : String :=
  (c.query key).getD defaultValue

/-- `c.Query(key)`. -/
def Context.Query {B : Type} (c : Context B) (key : String) : String :=
  (c.query key).getD ""

/-- What a handler of `UserHandler` did: the replies it wrote and the service
calls it made, both in order. -/
structure UserOutcome (P : Type) where
  responses : List (Response P)
  calls : List AuthCall

/-- `UserHandler.ensureAdmin`: the returned flag and the reply it wrote. -/
def ensureAdmin {P B : Type} (c : Context B) : Bool × List (Response P) :=
  let role := c.role
  if role ≠ "admin" then (false, [.Error .CodeForbidden "权限不足"])
  else (true, [])

/-- `UserHandler.List`. -/
def UserHandler.List {P B : Type} (svc : AuthService P) (c : Context B) : UserOutcome P :=
  match ensureAdmin c with
  | (false, written) => { responses := written, calls := [] }
  | (true, written) =>
    let page := (Atoi (c.DefaultQuery "page" "1")).1
    let pageSize := (Atoi (c.DefaultQuery "page_size" "10")).1
    let keyword := c.Query "keyword"
    match svc.ListUsers page pageSize keyword with
    | (_, some err) =>
      { responses := written ++ [.InternalError err]
        calls := [.ListUsers page pageSize keyword] }
    | (result, none) =>
      { responses := written ++ [.Success result]
        calls := [.ListUsers page pageSize keyword] }

/-- `UserHandler.Create`. -/
def UserHandler.Create {P : Type} (svc : AuthService P) (c : Context CreateUserRequest) :
    UserOutcome P :=
  match ensureAdmin c with
  | (false, written) => { responses := written, calls := [] }
  | (true, written) =>
    match ShouldBindJSON "CreateUserRequest" CreateUserRequest.failed c.body with
    | .error err => { responses := written ++ [.ParamError err], calls := [] }
    | .ok req =>
      match svc.CreateUser req with
      | some err => { responses := written ++ [.ParamError err], calls := [.CreateUser req] }
      | none =>
        { responses := written ++ [.SuccessWithMessage "用户创建成功" none]
          calls := [.CreateUser req] }

/-- `UserHandler.Update`. -/
def UserHandler.Update {P : Type} (svc : AuthService P) (c : Context UpdateUserRequest) :
    UserOutcome P :=
  match ensureAdmin c with
  | (false, written) => { responses := written, calls := [] }
  | (true, written) =>
    match ParseInt (c.param "id") with
    | (_, some _) => { responses := written ++ [.ParamError "无效的用户ID"], calls := [] }
    | (id, none) =>
      match ShouldBindJSON "UpdateUserRequest" UpdateUserRequest.failed c.body with
      | .error err => { responses := written ++ [.ParamError err], calls := [] }
      | .ok req =>
        match svc.UpdateUser id req with
        | some err =>
          { responses := written ++ [.InternalError err], calls := [.UpdateUser id req] }
        | none =>
          { responses := written ++ [.SuccessWithMessage "更新成功" none]
            calls := [.UpdateUser id req] }

/-- `UserHandler.Delete`. -/
def UserHandler.Delete {P B : Type} (svc : AuthService P) (c : Context B) : UserOutcome P :=
  match ensureAdmin c with
  | (false, written) => { responses := written, calls := [] }
  | (true, written) =>
    match ParseInt (c.param "id") with
    | (_, some _) => { responses := written ++ [.ParamError "无效的用户ID"], calls := [] }
    | (id, none) =>
      let currentUserID := c.userID
      if id = currentUserID then
        { responses := written ++ [.ParamError "不能删除当前登录账号"], calls := [] }
      else
        match svc.DeleteUser id with
        | some err =>
          { responses := written ++ [.InternalError err], calls := [.DeleteUser id] }
        | none =>
          { responses := written ++ [.SuccessWithMessage "删除成功" none]
            calls := [.DeleteUser id] }

/-- `UserHandler.ResetPassword`. -/
def UserHandler.ResetPassword {P : Type} (svc : AuthService P)
    (c : Context ResetPasswordRequest) : UserOutcome P :=
  match ensureAdmin c with
  | (false, written) => { responses := written, calls := [] }
  | (true, written) =>
    match ParseInt (c.param "id") with
    | (_, some _) => { responses := written ++ [.ParamError "无效的用户ID"], calls := [] }
    | (id, none) =>
      match ShouldBindJSON "ResetPasswordRequest" ResetPasswordRequest.failed c.body with
      | .error err => { responses := written ++ [.ParamError err], calls := [] }
      | .ok req =>
        match svc.ResetPassword id req.NewPassword with
        | some err =>
          { responses := written ++ [.InternalError err]
            calls := [.ResetPassword id req.NewPassword] }
        | none =>
          { responses := written ++ [.SuccessWithMessage "密码重置成功" none]
            calls := [.ResetPassword id req.NewPassword] }

/-! ## The sync service: `SyncTables`

`internal/service` is not part of the sources at hand; `SyncTables` is modelled
from the design document (data model, Connector, Synchronizer, error
handling). -/

/-- Modelled from the spec: a record read from a local table, keyed by column
name (the row type of the absent `internal/service`). -/
abbrev Row := List (String × String)

/-- Modelled from the spec: the `status` of a `TableSyncResult` of the absent
`internal/service`. -/
inductive SyncStatus where
  | success
  | partiallyCopied
  | failed
  | skippedNoLocalTable
  | skippedNoRemoteTable
  deriving DecidableEq, Repr

/-- Modelled from the spec: `TableSyncResult` of the sync service (table name,
rows copied, status, error detail set only on failed or partial). -/
structure TableSyncResult where
  tableName : String
  rowsCopied : Nat
  status : SyncStatus
  errorDetail : Option String
  deriving DecidableEq, Repr

/-- Modelled from the spec: how the remote engine answered one batch write (a
transfer error is scoped to the table, a lost connection is not). -/
inductive WriteOutcome where
  | acknowledged
  | transferError (detail : String)
  | connectionLost (detail : String)
  deriving DecidableEq, Repr

/-- Modelled from the spec: the local store, read-only for the sync subsystem. -/
structure LocalStore where
  tableExists : String → Bool
  columnNames : String → List String
  rows : String → List Row

/-- Modelled from the spec: the remote engine behind a connection of state `σ`,
that is the Connector (`connect` fails with the driver's message), the
SchemaIntrospector (whose catalog queries may fail) and the batch write. -/
structure RemoteEngine (σ : Type) where
  connect : SyncConfig → Except String σ
  tableExists : σ → String → Except String Bool
  columnNames : σ → String → Except String (List String)
  insertBatch : σ → String → List Row → σ × WriteOutcome

/-- Modelled from the spec: step 4 of the Synchronizer, a row projected onto the
columns that exist on both sides. -/
def projectRow (localCols remoteCols : List String) (row : Row) : Row :=
  row.filter fun kv => localCols.contains kv.1 && remoteCols.contains kv.1

/-- Modelled from the spec: the running account of one table's copy. -/
structure Progress (σ : Type) where
  conn : σ
  rowsCopied : Nat
  batchesOk : Nat
  firstError : Option String
  lost : Option String

/-- Modelled from the spec: steps 5 and 6 of the Synchronizer. The batches are
written in order; a failed batch is recorded and the copy goes on, a lost
connection ends it. -/
def writeBatches {σ : Type} (E : RemoteEngine σ) (table : String) :
    List (List Row) → Progress σ → Progress σ
  | [], p => p
  | b :: bs, p =>
    match E.insertBatch p.conn table b with
    | (conn, .acknowledged) =>
      writeBatches E table bs
        { p with conn := conn, rowsCopied := p.rowsCopied + b.length,
                 batchesOk := p.batchesOk + 1 }
    | (conn, .transferError d) =>
      writeBatches E table bs
        { p with conn := conn, firstError := p.firstError.orElse fun _ => some d }
    | (conn, .connectionLost d) =>
      { p with conn := conn, firstError := p.firstError.orElse fun _ => some d, lost := some d }

/-- Modelled from the spec: the state of the loop over the requested tables,
that is the connection, and the connectivity error once the connection is no
longer usable. -/
structure LoopState (σ : Type) where
  conn : σ
  lost : Option String

/-- Modelled from the spec: the Synchronizer's treatment of one table (steps 1
to 6 of its algorithm), which is part of the absent `internal/service`. -/
def syncTable {σ : Type} (L : LocalStore) (E : RemoteEngine σ) (batchSize : Nat)
    (st : LoopState σ) (table : String) : TableSyncResult × LoopState σ :=
  match st.lost with
  | some d =>
    ({ tableName := table, rowsCopied := 0, status := .failed, errorDetail := some d }, st)
  | none =>
    if !L.tableExists table then
      ({ tableName := table, rowsCopied := 0, status := .skippedNoLocalTable,
         errorDetail := none }, st)
    else
      match E.tableExists st.conn table with
      | .error d =>
        ({ tableName := table, rowsCopied := 0, status := .failed, errorDetail := some d }, st)
      | .ok false =>
        ({ tableName := table, rowsCopied := 0, status := .skippedNoRemoteTable,
           errorDetail := none }, st)
      | .ok true =>
        match E.columnNames st.conn table with
        | .error d =>
          ({ tableName := table, rowsCopied := 0, status := .failed, errorDetail := some d },
           st)
        | .ok remoteCols =>
          let rows := (L.rows table).map (projectRow (L.columnNames table) remoteCols)
          let p := writeBatches E table (rows.toChunks batchSize)
            { conn := st.conn, rowsCopied := 0, batchesOk := 0, firstError := none,
              lost := none }
          let status :=
            match p.firstError with
            | none => SyncStatus.success
            | some _ => if p.batchesOk = 0 then SyncStatus.failed else SyncStatus.partiallyCopied
          ({ tableName := table, rowsCopied := p.rowsCopied, status := status,
             errorDetail := p.firstError },
           { conn := p.conn, lost := p.lost })

/-- Modelled from the spec: the Synchronizer's loop over the requested tables,
in input order. -/
def syncLoop {σ : Type} (L : LocalStore) (E : RemoteEngine σ) (batchSize : Nat) :
    LoopState σ → List String → List TableSyncResult
  | _, [] => []
  | st, t :: ts =>
    let step := syncTable L E batchSize st t
    step.1 :: syncLoop L E batchSize step.2 ts

/-- Modelled from the spec: `SyncService.SyncTables`, absent from the sources.
The connection is opened first; a connection error is the operation's single
top-level error and no table is processed; otherwise every requested table is
processed in turn. -/
def SyncTables {σ : Type} (L : LocalStore) (E : RemoteEngine σ) (batchSize : Nat)
    (cfg : SyncConfig) (tables : List String) : List TableSyncResult × Option String :=
  match E.connect cfg with
  | .error e => ([], some e)
  | .ok conn => (syncLoop L E batchSize { conn := conn, lost := none } tables, none)

/-! ## Decimal numerals, for stating what `Atoi` computes -/

/-- The number denoted by a run of decimal digits read after the number `n`. -/
def decimalValue : List Char → Nat → Nat
  | [], n => n
  | c :: cs, n => decimalValue cs (n * 10 + (c.toNat - 48))

/-- The integer denoted by a string that is an optional sign followed by one or
more decimal digits; `none` for any other string. -/
def parseDecimal (s : String) : Option Int :=
  match s.data with
  | [] => none
  | c :: rest =>
    let digits := if c = '+' ∨ c = '-' then rest else c :: rest
    if digits ≠ [] ∧ digits.all isDigit = true then
      some (if c = '-' then -(decimalValue digits 0 : Int) else (decimalValue digits 0 : Int))
    else none

/-- The port default as the specification words it: 5432 when the variable is
unset, empty, does not parse as an `int` or parses to 0, the parsed integer
otherwise. -/
def claimedPort (value : String) : Int :=
  match parseDecimal value with
  | none => 5432
  | some v =>
    if v = 0 then 5432
    else if v < -9223372036854775808 ∨ 9223372036854775807 < v then 5432
    else v

/-- The entry `key` of the `data` object of a reply. -/
def Outcome.dataField {R : Type} (o : Outcome R) (key : String) : Option Prim :=
  match o.body.lookup "data" with
  | some (.h fields) => fields.lookup key
  | _ => none

/-! ## Concrete inputs used to instantiate the properties -/

/-- A request naming an engine kind the sync subsystem does not support. -/
def sqliteRequest : TestConnectionRequest :=
  { DBType := "sqlite", Host := "db.example.com", Port := 5432, User := "orange",
    Password := "secret", DBName := "cloud", SSLMode := "" }

/-- A complete request without SSL mode. -/
def postgresRequest : TestConnectionRequest :=
  { DBType := "postgres", Host := "db.example.com", Port := 5432, User := "orange",
    Password := "secret", DBName := "cloud", SSLMode := "" }

/-- A request whose port is missing. -/
def portlessRequest : TestConnectionRequest :=
  { DBType := "postgres", Host := "db.example.com", Port := 0, User := "orange",
    Password := "secret", DBName := "cloud", SSLMode := "disable" }

/-- A complete execute request for two tables. -/
def ordersRequest : ExecuteRequest :=
  { DBType := "postgres", Host := "localhost", Port := 5432, User := "orange",
    Password := "secret", DBName := "cloud", SSLMode := "disable",
    Tables := some ["orders", "missing_tbl"] }

/-- A service that cannot reach the remote host, and returns partial results
next to its error. -/
def refusingService : SyncService Nat :=
  { TestConnection := fun _ => some "dial tcp 10.0.0.1:5432: connect: connection refused"
    CompareData := fun _ => ([1, 2], some "dial tcp 10.0.0.1:5432: connect: connection refused")
    SyncTables := fun _ _ => ([3], some "dial tcp 10.0.0.1:5432: connect: connection refused") }

/-- A service on which only `CompareData` fails; it returns partial results
next to its error. -/
def compareFailingService : SyncService Nat :=
  { TestConnection := fun _ => none
    CompareData := fun _ => ([1, 2], some "dial tcp 10.0.0.1:5432: connect: connection refused")
    SyncTables := fun _ tables => (tables.map String.length, none) }

/-- A service on which only `SyncTables` fails; it returns partial results next
to its error. -/
def syncFailingService : SyncService Nat :=
  { TestConnection := fun _ => none
    CompareData := fun _ => ([1, 2], none)
    SyncTables := fun _ _ => ([3], some "dial tcp 10.0.0.1:5432: connect: connection refused") }

/-- A service on which every operation succeeds. -/
def agreeingService : SyncService Nat :=
  { TestConnection := fun _ => none
    CompareData := fun _ => ([1, 2], none)
    SyncTables := fun _ tables => (tables.map String.length, none) }

/-- An environment that sets every `SYNC_*` variable. -/
def officeEnv (key : String) : String :=
  if key = "SYNC_DB_TYPE" then "mysql"
  else if key = "SYNC_DB_HOST" then "office.example.com"
  else if key = "SYNC_DB_PORT" then "3306"
  else if key = "SYNC_DB_USER" then "office"
  else if key = "SYNC_DB_PASSWORD" then "hunter2"
  else if key = "SYNC_DB_NAME" then "office"
  else if key = "SYNC_SSL_MODE" then "require"
  else ""

/-- An environment that sets nothing. -/
def emptyEnv (_key : String) : String := ""

/-- A MySQL configuration. -/
def mysqlConfig : Config :=
  { DBType := "mysql", DBAutoCreate := true, DBUser := "root", DBPassword := "pw",
    DBHost := "db.local", DBPort := 3306, DBName := "orange", DBSSLMode := "",
    DBPath := "" }

/-- A PostgreSQL configuration. -/
def postgresConfig : Config :=
  { DBType := "postgres", DBAutoCreate := true, DBUser := "orange", DBPassword := "pw",
    DBHost := "db.local", DBPort := 5432, DBName := "cloud", DBSSLMode := "disable",
    DBPath := "" }

/-- Drivers on which every operation succeeds and the database already exists. -/
def readyDrivers : Drivers :=
  { sqlOpen := fun _ _ => none
    exec := fun _ _ _ => none
    queryExists := fun _ _ _ => .ok true
    gormOpen := fun _ => none }

/-- An auth service on which every operation succeeds; a page is its number. -/
def openAuthService : AuthService Int :=
  { ListUsers := fun page _ _ => (page, none)
    CreateUser := fun _ => none
    UpdateUser := fun _ _ => none
    DeleteUser := fun _ => none
    ResetPassword := fun _ _ => none }

/-- A query string without parameters. -/
def noQuery (_key : String) : Option String := none

/-- Path parameters in which `id` is not a number. -/
def badIdParam (key : String) : String := if key = "id" then "abc" else ""

/-- A local store holding the table `orders` with three rows. -/
def shopStore : LocalStore :=
  { tableExists := fun t => t == "orders"
    columnNames := fun _ => ["id", "total", "notes"]
    rows := fun t =>
      if t == "orders" then
        [[("id", "1"), ("total", "10"), ("notes", "a")],
         [("id", "2"), ("total", "20"), ("notes", "b")],
         [("id", "3"), ("total", "30"), ("notes", "c")]]
      else [] }

/-- A remote engine whose state is the rows it has stored; it knows the table
`orders`, without the column `notes`, and refuses to connect to any host but
`localhost`. -/
def cloudEngine : RemoteEngine (List Row) :=
  { connect := fun cfg =>
      if cfg.Host = "localhost" then .ok [] else .error "dial tcp: no such host"
    tableExists := fun _ t => .ok (t == "orders")
    columnNames := fun _ _ => .ok ["id", "total"]
    insertBatch := fun stored _ batch => (stored ++ batch, .acknowledged) }

/-- An environment whose port is one more than the largest `int`. -/
def hugePortEnv (key : String) : String :=
  if key = "SYNC_DB_PORT" then "9223372036854775808" else ""

/-- The sync service of `shopStore` and `cloudEngine`, writing two rows a batch. -/
def shopService : SyncService TableSyncResult :=
  { TestConnection := fun cfg =>
      match cloudEngine.connect cfg with
      | .error e => some e
      | .ok _ => none
    CompareData := fun _ => ([], none)
    SyncTables := SyncTables shopStore cloudEngine 2 }

/-- Path parameters in which `id` is `value`. -/
def idParam (value : String) (key : String) : String := if key = "id" then value else ""

/-! # Properties -/

/-! ## Validation -/

theorem testConnectionRequest_failed_nil_iff (r : TestConnectionRequest) :
    r.failed = [] ↔ r.toConfig.complete := by
  simp only [TestConnectionRequest.failed, TestConnectionRequest.toConfig, SyncConfig.complete,
    requiredString, requiredInt]
  by_cases h1 : r.DBType = "" <;> by_cases h2 : r.Host = "" <;> by_cases h3 : r.Port = 0 <;>
    by_cases h4 : r.User = "" <;> by_cases h5 : r.Password = "" <;>
    by_cases h6 : r.DBName = "" <;> simp [h1, h2, h3, h4, h5, h6]

theorem executeRequest_failed_nil_iff (r : ExecuteRequest) :
    r.failed = [] ↔ r.toConfig.complete ∧ r.Tables.isSome := by
  simp only [ExecuteRequest.failed, ExecuteRequest.toConfig, SyncConfig.complete,
    requiredString, requiredInt, requiredSlice]
  by_cases h1 : r.DBType = "" <;> by_cases h2 : r.Host = "" <;> by_cases h3 : r.Port = 0 <;>
    by_cases h4 : r.User = "" <;> by_cases h5 : r.Password = "" <;>
    by_cases h6 : r.DBName = "" <;> by_cases h7 : r.Tables.isSome <;>
    simp [h1, h2, h3, h4, h5, h6, h7]

theorem ShouldBindJSON_ok {α : Type} (name : String) (failed : α → List (String × String))
    (req : α) (h : failed req = []) : ShouldBindJSON name failed (.ok req) = .ok req := by
  simp [ShouldBindJSON, h]

theorem ShouldBindJSON_rejected {α : Type} (name : String)
    (failed : α → List (String × String)) (req : α) (h : failed req ≠ []) :
    ShouldBindJSON name failed (.ok req) = .error (validationError name (failed req)) := by
  simp [ShouldBindJSON, h]

theorem ShouldBindJSON_eq_ok {α : Type} {name : String} {failed : α → List (String × String)}
    {body : Except String α} {req : α} (h : ShouldBindJSON name failed body = .ok req) :
    body = .ok req ∧ failed req = [] := by
  cases body with
  | error e => simp [ShouldBindJSON] at h
  | ok r =>
    by_cases hf : failed r = []
    · simp [ShouldBindJSON, hf] at h
      subst h
      exact ⟨rfl, hf⟩
    · simp [ShouldBindJSON, hf] at h

/-! ## The calls made by the three sync handlers -/

theorem TestConnection_calls {R : Type} (w : World R)
    (body : Except String TestConnectionRequest) :
    (TestConnection w body).calls =
      match ShouldBindJSON "TestConnectionRequest" TestConnectionRequest.failed body with
      | .error _ => []
      | .ok req => [.TestConnection req.toConfig] := by
  unfold TestConnection
  split
  · rfl
  · dsimp only
    split <;> rfl

theorem Compare_calls {R : Type} (w : World R) (body : Except String TestConnectionRequest) :
    (Compare w body).calls =
      match ShouldBindJSON "TestConnectionRequest" TestConnectionRequest.failed body with
      | .error _ => []
      | .ok req => [.CompareData req.toConfig] := by
  unfold Compare
  split
  · rfl
  · dsimp only
    split <;> rfl

theorem Execute_calls {R : Type} (w : World R) (body : Except String ExecuteRequest) :
    (Execute w body).calls =
      match ShouldBindJSON "ExecuteRequest" ExecuteRequest.failed body with
      | .error _ => []
      | .ok req => [.SyncTables req.toConfig (req.Tables.getD [])] := by
  unfold Execute
  split
  · rfl
  · dsimp only
    split <;> rfl

theorem TestConnection_status_of_error {R : Type} (w : World R)
    (body : Except String TestConnectionRequest) (e : String)
    (h : ShouldBindJSON "TestConnectionRequest" TestConnectionRequest.failed body = .error e) :
    (TestConnection w body).status = StatusBadRequest := by
  unfold TestConnection
  rw [h]

theorem Compare_status_of_error {R : Type} (w : World R)
    (body : Except String TestConnectionRequest) (e : String)
    (h : ShouldBindJSON "TestConnectionRequest" TestConnectionRequest.failed body = .error e) :
    (Compare w body).status = StatusBadRequest := by
  unfold Compare
  rw [h]

theorem Execute_status_of_error {R : Type} (w : World R)
    (body : Except String ExecuteRequest) (e : String)
    (h : ShouldBindJSON "ExecuteRequest" ExecuteRequest.failed body = .error e) :
    (Execute w body).status = StatusBadRequest := by
  unfold Execute
  rw [h]



/-! ## C1: what the binding tags guarantee about the descriptor -/

/-- C1: every descriptor that `TestConnection`, `Compare` or `Execute` hands to
the sync service has non-empty `DBType`, `Host`, `User`, `Password`, `DBName`
and a non-zero `Port`; a decoded request in which one of these is empty or zero
is answered with HTTP 400 without any service call; and a request in which they
are all set is passed on whatever its `SSLMode`, empty included. -/
theorem sync_binding_required {R : Type} (w : World R)
    (bt : Except String TestConnectionRequest) (be : Except String ExecuteRequest) :
    (∀ call, call ∈ (TestConnection w bt).calls ∨ call ∈ (Compare w bt).calls ∨
        call ∈ (Execute w be).calls → call.cfg.complete) ∧
    (∀ req, bt = .ok req → ¬ req.toConfig.complete →
        (TestConnection w bt).status = StatusBadRequest ∧ (TestConnection w bt).calls = [] ∧
        (Compare w bt).status = StatusBadRequest ∧ (Compare w bt).calls = []) ∧
    (∀ req, be = .ok req → ¬ req.toConfig.complete →
        (Execute w be).status = StatusBadRequest ∧ (Execute w be).calls = []) ∧
    (∀ req, bt = .ok req → req.toConfig.complete →
        (TestConnection w bt).calls = [.TestConnection req.toConfig] ∧
        (Compare w bt).calls = [.CompareData req.toConfig]) := by
  refine ⟨?_, ?_, ?_, ?_⟩
  · intro call hcall
    rcases hcall with h | h | h
    · rw [TestConnection_calls] at h
      split at h
      · simp at h
      · rename_i req hreq
        simp only [List.mem_singleton] at h
        subst h
        exact (testConnectionRequest_failed_nil_iff req).1 (ShouldBindJSON_eq_ok hreq).2
    · rw [Compare_calls] at h
      split at h
      · simp at h
      · rename_i req hreq
        simp only [List.mem_singleton] at h
        subst h
        exact (testConnectionRequest_failed_nil_iff req).1 (ShouldBindJSON_eq_ok hreq).2
    · rw [Execute_calls] at h
      split at h
      · simp at h
      · rename_i req hreq
        simp only [List.mem_singleton] at h
        subst h
        exact ((executeRequest_failed_nil_iff req).1 (ShouldBindJSON_eq_ok hreq).2).1
  · intro req hbt hinc
    subst hbt
    have hf : req.failed ≠ [] := fun h => hinc ((testConnectionRequest_failed_nil_iff req).1 h)
    have hb := ShouldBindJSON_rejected "TestConnectionRequest" TestConnectionRequest.failed req hf
    refine ⟨TestConnection_status_of_error w _ _ hb, ?_, Compare_status_of_error w _ _ hb, ?_⟩
    · rw [TestConnection_calls, hb]
    · rw [Compare_calls, hb]
  · intro req hbe hinc
    subst hbe
    have hf : req.failed ≠ [] :=
      fun h => hinc ((executeRequest_failed_nil_iff req).1 h).1
    have hb := ShouldBindJSON_rejected "ExecuteRequest" ExecuteRequest.failed req hf
    refine ⟨Execute_status_of_error w _ _ hb, ?_⟩
    rw [Execute_calls, hb]
  · intro req hbt hc
    subst hbt
    have hb := ShouldBindJSON_ok "TestConnectionRequest" TestConnectionRequest.failed req
      ((testConnectionRequest_failed_nil_iff req).2 hc)
    constructor
    · rw [TestConnection_calls, hb]
    · rw [Compare_calls, hb]

/-- C1 at concrete requests: one without port is refused with 400 and no call,
one that sets everything but the SSL mode reaches the service. -/
theorem sync_binding_required_witness :
    (TestConnection ⟨emptyEnv, agreeingService⟩ (.ok portlessRequest)).status = 400 ∧
    (TestConnection ⟨emptyEnv, agreeingService⟩ (.ok portlessRequest)).calls = [] ∧
    postgresRequest.SSLMode = "" ∧
    (TestConnection ⟨emptyEnv, agreeingService⟩ (.ok postgresRequest)).calls =
      [.TestConnection postgresRequest.toConfig] :=
  ⟨((sync_binding_required ⟨emptyEnv, agreeingService⟩ (.ok portlessRequest)
      (.error "EOF")).2.1 portlessRequest rfl (by decide)).1,
   ((sync_binding_required ⟨emptyEnv, agreeingService⟩ (.ok portlessRequest)
      (.error "EOF")).2.1 portlessRequest rfl (by decide)).2.1,
   rfl,
   ((sync_binding_required ⟨emptyEnv, agreeingService⟩ (.ok postgresRequest)
      (.error "EOF")).2.2.2 postgresRequest rfl (by decide)).1⟩

/-! ## C2: the engine kind is only required to be present -/

/-- C2, as stated, fails: a request whose `db_type` is `"sqlite"` passes the
binding validation of `TestConnection`, `Compare` and `Execute`, and a descriptor
with that engine kind is passed to the sync service. -/
theorem sqlite_engine_kind_reaches_service :
    sqliteRequest.DBType ≠ "mysql" ∧ sqliteRequest.DBType ≠ "postgres" ∧
    (TestConnection ⟨emptyEnv, agreeingService⟩ (.ok sqliteRequest)).status = StatusOK ∧
    (TestConnection ⟨emptyEnv, agreeingService⟩ (.ok sqliteRequest)).calls =
      [.TestConnection
        { DBType := "sqlite", Host := "db.example.com", Port := 5432, User := "orange",
          Password := "secret", DBName := "cloud", SSLMode := "" }] ∧
    (Compare ⟨emptyEnv, agreeingService⟩ (.ok sqliteRequest)).calls =
      [.CompareData sqliteRequest.toConfig] ∧
    (Execute ⟨emptyEnv, agreeingService⟩
        (.ok { ordersRequest with DBType := "no such engine" })).calls =
      [.SyncTables { ordersRequest.toConfig with DBType := "no such engine" }
        ["orders", "missing_tbl"]] := by
  decide

/-- C2, amended: the handlers require the engine kind to be present and nothing
more. A request is refused on account of `db_type` exactly when it is empty;
whenever the required fields are all set, whatever string `db_type` is, each
handler makes exactly one service call and the descriptor of that call carries
the request's `db_type` unchanged. -/
theorem engine_kind_only_required {R : Type} (w : World R) (req : TestConnectionRequest)
    (ereq : ExecuteRequest) :
    ((("DBType", "required") ∈ req.failed) ↔ req.DBType = "") ∧
    ((("DBType", "required") ∈ ereq.failed) ↔ ereq.DBType = "") ∧
    (req.toConfig.complete →
      (TestConnection w (.ok req)).calls = [.TestConnection req.toConfig] ∧
      (Compare w (.ok req)).calls = [.CompareData req.toConfig] ∧
      req.toConfig.DBType = req.DBType) ∧
    (ereq.toConfig.complete → ∀ tables, ereq.Tables = some tables →
      (Execute w (.ok ereq)).calls = [.SyncTables ereq.toConfig tables] ∧
      ereq.toConfig.DBType = ereq.DBType) := by
  refine ⟨?_, ?_, ?_, ?_⟩
  · simp only [TestConnectionRequest.failed, requiredString, requiredInt]
    by_cases h1 : req.DBType = "" <;> simp [h1]
  · simp only [ExecuteRequest.failed, requiredString, requiredInt, requiredSlice]
    by_cases h1 : ereq.DBType = "" <;> simp [h1]
  · intro hc
    have hb := ShouldBindJSON_ok "TestConnectionRequest" TestConnectionRequest.failed req
      ((testConnectionRequest_failed_nil_iff req).2 hc)
    refine ⟨?_, ?_, rfl⟩
    · rw [TestConnection_calls, hb]
    · rw [Compare_calls, hb]
  · intro hc tables ht
    have hb := ShouldBindJSON_ok "ExecuteRequest" ExecuteRequest.failed ereq
      ((executeRequest_failed_nil_iff ereq).2 ⟨hc, by simp [ht]⟩)
    refine ⟨?_, rfl⟩
    rw [Execute_calls, hb]
    simp [ht]

/-- C2, amended, at the request naming `"sqlite"`: it reaches the service. -/
theorem engine_kind_only_required_witness :
    (TestConnection ⟨emptyEnv, refusingService⟩ (.ok sqliteRequest)).calls =
      [.TestConnection sqliteRequest.toConfig] ∧
    (Compare ⟨emptyEnv, refusingService⟩ (.ok sqliteRequest)).calls =
      [.CompareData sqliteRequest.toConfig] ∧
    sqliteRequest.toConfig.DBType = "sqlite" :=
  (engine_kind_only_required ⟨emptyEnv, refusingService⟩ sqliteRequest ordersRequest).2.2.1
    (by decide)

/-! ## C3 and C4: a service error is the whole reply -/

theorem Compare_body_of_error {R : Type} (w : World R) (req : TestConnectionRequest)
    (hreq : req.failed = []) (rs : List R) (e : String)
    (herr : w.syncService.CompareData req.toConfig = (rs, some e)) :
    (Compare w (.ok req)).body = [("code", .int 1), ("message", .str e)] := by
  unfold Compare
  rw [ShouldBindJSON_ok _ _ req hreq]
  simp only [herr]

theorem Execute_body_of_error {R : Type} (w : World R) (req : ExecuteRequest)
    (hreq : req.failed = []) (rs : List R) (e : String)
    (herr : w.syncService.SyncTables req.toConfig (req.Tables.getD []) = (rs, some e)) :
    (Execute w (.ok req)).body = [("code", .int 1), ("message", .str e)] := by
  unfold Execute
  rw [ShouldBindJSON_ok _ _ req hreq]
  simp only [herr]

theorem TestConnection_body_of_error {R : Type} (w : World R) (req : TestConnectionRequest)
    (hreq : req.failed = []) (e : String)
    (herr : w.syncService.TestConnection req.toConfig = some e) :
    (TestConnection w (.ok req)).body = [("code", .int 1), ("message", .str e)] := by
  unfold TestConnection
  rw [ShouldBindJSON_ok _ _ req hreq]
  simp only [herr]

theorem Compare_data_only_with_code_zero {R : Type} (w : World R)
    (body : Except String TestConnectionRequest) (v : HVal R)
    (h : (Compare w body).body.lookup "data" = some v) :
    (Compare w body).body.lookup "code" = some (.int 0) := by
  unfold Compare at h ⊢
  split
  · rename_i e he
    rw [he] at h
    simp [List.lookup] at h
  · rename_i req hreq
    rw [hreq] at h
    dsimp only at h ⊢
    split
    · rename_i rs e herr
      rw [herr] at h
      simp [List.lookup] at h
    · simp [List.lookup]

theorem Execute_data_only_with_code_zero {R : Type} (w : World R)
    (body : Except String ExecuteRequest) (v : HVal R)
    (h : (Execute w body).body.lookup "data" = some v) :
    (Execute w body).body.lookup "code" = some (.int 0) := by
  unfold Execute at h ⊢
  split
  · rename_i e he
    rw [he] at h
    simp [List.lookup] at h
  · rename_i req hreq
    rw [hreq] at h
    dsimp only at h ⊢
    split
    · rename_i rs e herr
      rw [herr] at h
      simp [List.lookup] at h
    · simp [List.lookup]

/-- C3: for `Compare` and for `Execute`, each on its own: whenever the sync
service returns an error on a valid request, the reply has exactly the two keys
`code`, which is 1, and `message`, which is the error; there is no `data` key,
whatever results the service returned next to its error. And for every service
and every request body, valid or not, a reply that has a `data` key has code
0. -/
theorem service_error_is_whole_reply {R : Type} (w : World R) :
    (∀ (req : TestConnectionRequest) (rs : List R) (e : String),
      req.toConfig.complete → w.syncService.CompareData req.toConfig = (rs, some e) →
      (Compare w (.ok req)).body.lookup "code" = some (.int 1) ∧
      (Compare w (.ok req)).body.lookup "message" = some (.str e) ∧
      (Compare w (.ok req)).body.lookup "data" = none ∧
      (Compare w (.ok req)).body.map Prod.fst = ["code", "message"]) ∧
    (∀ (ereq : ExecuteRequest) (rs : List R) (e : String),
      ereq.toConfig.complete → ereq.Tables.isSome →
      w.syncService.SyncTables ereq.toConfig (ereq.Tables.getD []) = (rs, some e) →
      (Execute w (.ok ereq)).body.lookup "code" = some (.int 1) ∧
      (Execute w (.ok ereq)).body.lookup "message" = some (.str e) ∧
      (Execute w (.ok ereq)).body.lookup "data" = none ∧
      (Execute w (.ok ereq)).body.map Prod.fst = ["code", "message"]) ∧
    (∀ (body : Except String TestConnectionRequest) (v : HVal R),
      (Compare w body).body.lookup "data" = some v →
        (Compare w body).body.lookup "code" = some (.int 0)) ∧
    (∀ (body : Except String ExecuteRequest) (v : HVal R),
      (Execute w body).body.lookup "data" = some v →
        (Execute w body).body.lookup "code" = some (.int 0)) := by
  refine ⟨?_, ?_, Compare_data_only_with_code_zero w, Execute_data_only_with_code_zero w⟩
  · intro req rs e hreq hcompare
    rw [Compare_body_of_error w req ((testConnectionRequest_failed_nil_iff req).2 hreq) rs e
      hcompare]
    exact ⟨by simp [List.lookup], by simp [List.lookup], by simp [List.lookup], rfl⟩
  · intro ereq rs e hereq htables hsync
    rw [Execute_body_of_error w ereq
      ((executeRequest_failed_nil_iff ereq).2 ⟨hereq, htables⟩) rs e hsync]
    exact ⟨by simp [List.lookup], by simp [List.lookup], by simp [List.lookup], rfl⟩

/-- C3 at a service on which only `CompareData` fails, returning partial results
next to its error: the reply of `Compare` has code 1 and no `data`, while the
reply of `Execute` on the same service has `data` and code 0; and at a service
on which only `SyncTables` fails, the reply of `Execute` has no `data`. -/
theorem service_error_is_whole_reply_witness :
    ((Compare ⟨emptyEnv, compareFailingService⟩ (.ok postgresRequest)).body.lookup "code" =
        some (.int 1) ∧
      (Compare ⟨emptyEnv, compareFailingService⟩ (.ok postgresRequest)).body.lookup "data" =
        none) ∧
    (Execute ⟨emptyEnv, compareFailingService⟩ (.ok ordersRequest)).body.lookup "code" =
      some (.int 0) ∧
    (Execute ⟨emptyEnv, syncFailingService⟩ (.ok ordersRequest)).body.lookup "data" = none ∧
    (Compare ⟨emptyEnv, syncFailingService⟩ (.ok postgresRequest)).body.lookup "code" =
      some (.int 0) :=
  have h := (service_error_is_whole_reply ⟨emptyEnv, compareFailingService⟩).1
    postgresRequest [1, 2] "dial tcp 10.0.0.1:5432: connect: connection refused"
    (by decide) rfl
  ⟨⟨h.1, h.2.2.1⟩,
   (service_error_is_whole_reply ⟨emptyEnv, compareFailingService⟩).2.2.2
    (.ok ordersRequest) (.results [6, 11]) (by decide),
   ((service_error_is_whole_reply ⟨emptyEnv, syncFailingService⟩).2.1 ordersRequest [3]
    "dial tcp 10.0.0.1:5432: connect: connection refused" (by decide) rfl rfl).2.2.1,
   (service_error_is_whole_reply ⟨emptyEnv, syncFailingService⟩).2.2.1
    (.ok postgresRequest) (.results [1, 2]) (by decide)⟩

/-- C4: whatever error the sync service returns to `TestConnection`, `Compare`
or `Execute` on a valid request, the `message` of the reply is that error's
message, character for character. -/
theorem service_error_verbatim {R : Type} (w : World R) (req : TestConnectionRequest)
    (ereq : ExecuteRequest) (hreq : req.toConfig.complete) (hereq : ereq.toConfig.complete)
    (htables : ereq.Tables.isSome) :
    (∀ e, w.syncService.TestConnection req.toConfig = some e →
      (TestConnection w (.ok req)).body.lookup "message" = some (.str e)) ∧
    (∀ rs e, w.syncService.CompareData req.toConfig = (rs, some e) →
      (Compare w (.ok req)).body.lookup "message" = some (.str e)) ∧
    (∀ rs e, w.syncService.SyncTables ereq.toConfig (ereq.Tables.getD []) = (rs, some e) →
      (Execute w (.ok ereq)).body.lookup "message" = some (.str e)) := by
  have hf := (testConnectionRequest_failed_nil_iff req).2 hreq
  have hef := (executeRequest_failed_nil_iff ereq).2 ⟨hereq, htables⟩
  refine ⟨?_, ?_, ?_⟩
  · intro e he
    rw [TestConnection_body_of_error w req hf e he]
    simp [List.lookup]
  · intro rs e he
    rw [Compare_body_of_error w req hf rs e he]
    simp [List.lookup]
  · intro rs e he
    rw [Execute_body_of_error w ereq hef rs e he]
    simp [List.lookup]

/-- C4 at a refused connection: the driver's message is the reply's message. -/
theorem service_error_verbatim_witness :
    (TestConnection ⟨emptyEnv, refusingService⟩ (.ok postgresRequest)).body.lookup "message" =
      some (.str "dial tcp 10.0.0.1:5432: connect: connection refused") ∧
    (Execute ⟨emptyEnv, refusingService⟩ (.ok ordersRequest)).body.lookup "message" =
      some (.str "dial tcp 10.0.0.1:5432: connect: connection refused") :=
  have h := service_error_verbatim ⟨emptyEnv, refusingService⟩ postgresRequest ordersRequest
    (by decide) (by decide) rfl
  ⟨h.1 _ rfl, h.2.2 [3] _ rfl⟩

/-! ## C6: the descriptor comes from the request alone -/

/-- C6: the service calls of `TestConnection`, `Compare` and `Execute` do not
depend on the environment: under any two environments the same body produces
the same calls; and the descriptor of every call made for a decoded request
`req` has the seven fields of `req`. -/
theorem descriptor_from_request_only {R : Type} (svc : SyncService R)
    (env env' : String → String) (bt : Except String TestConnectionRequest)
    (be : Except String ExecuteRequest) :
    (TestConnection ⟨env, svc⟩ bt).calls = (TestConnection ⟨env', svc⟩ bt).calls ∧
    (Compare ⟨env, svc⟩ bt).calls = (Compare ⟨env', svc⟩ bt).calls ∧
    (Execute ⟨env, svc⟩ be).calls = (Execute ⟨env', svc⟩ be).calls ∧
    (∀ req call, bt = .ok req →
      call ∈ (TestConnection ⟨env, svc⟩ bt).calls ∨
        call ∈ (Compare ⟨env, svc⟩ bt).calls →
      call.cfg.DBType = req.DBType ∧ call.cfg.Host = req.Host ∧ call.cfg.Port = req.Port ∧
      call.cfg.User = req.User ∧ call.cfg.Password = req.Password ∧
      call.cfg.DBName = req.DBName ∧ call.cfg.SSLMode = req.SSLMode) ∧
    (∀ req call, be = .ok req → call ∈ (Execute ⟨env, svc⟩ be).calls →
      call.cfg.DBType = req.DBType ∧ call.cfg.Host = req.Host ∧ call.cfg.Port = req.Port ∧
      call.cfg.User = req.User ∧ call.cfg.Password = req.Password ∧
      call.cfg.DBName = req.DBName ∧ call.cfg.SSLMode = req.SSLMode) := by
  refine ⟨?_, ?_, ?_, ?_, ?_⟩
  · rw [TestConnection_calls, TestConnection_calls]
  · rw [Compare_calls, Compare_calls]
  · rw [Execute_calls, Execute_calls]
  · intro req call hbt hcall
    subst hbt
    rw [TestConnection_calls, Compare_calls] at hcall
    by_cases hf : req.failed = []
    · rw [ShouldBindJSON_ok _ _ req hf] at hcall
      simp only [List.mem_singleton] at hcall
      rcases hcall with h | h <;> subst h <;> exact ⟨rfl, rfl, rfl, rfl, rfl, rfl, rfl⟩
    · rw [ShouldBindJSON_rejected _ _ req hf] at hcall
      simp at hcall
  · intro req call hbe hcall
    subst hbe
    rw [Execute_calls] at hcall
    by_cases hf : req.failed = []
    · rw [ShouldBindJSON_ok _ _ req hf] at hcall
      simp only [List.mem_singleton] at hcall
      subst hcall
      exact ⟨rfl, rfl, rfl, rfl, rfl, rfl, rfl⟩
    · rw [ShouldBindJSON_rejected _ _ req hf] at hcall
      simp at hcall

/-- C6 at two environments, one of which sets every `SYNC_*` variable: the
descriptor is the request's, not the environment's. -/
theorem descriptor_from_request_only_witness :
    officeEnv "SYNC_DB_HOST" ≠ emptyEnv "SYNC_DB_HOST" ∧
    (TestConnection ⟨officeEnv, agreeingService⟩ (.ok postgresRequest)).calls =
      (TestConnection ⟨emptyEnv, agreeingService⟩ (.ok postgresRequest)).calls ∧
    (TestConnection ⟨officeEnv, agreeingService⟩ (.ok postgresRequest)).calls =
      [.TestConnection
        { DBType := "postgres", Host := "db.example.com", Port := 5432, User := "orange",
          Password := "secret", DBName := "cloud", SSLMode := "" }] :=
  ⟨by decide,
   (descriptor_from_request_only agreeingService officeEnv emptyEnv (.ok postgresRequest)
      (.ok ordersRequest)).1,
   by decide⟩

/-! ## C7 and C8: the connection strings of `internal/database` -/

theorem mysqlDSN_eq (cfg : Config) :
    mysqlDSN cfg =
      cfg.DBUser ++ ":" ++ cfg.DBPassword ++ "@tcp(" ++ cfg.DBHost ++ ":" ++
        formatInt cfg.DBPort ++ ")/" ++ cfg.DBName ++
        "?charset=utf8mb4&parseTime=True&loc=Local" := by
  apply String.ext
  simp [mysqlDSN, Sprintf, sprintfAux]

theorem ensureMySQLDSN_eq (cfg : Config) :
    ensureMySQLDSN cfg =
      cfg.DBUser ++ ":" ++ cfg.DBPassword ++ "@tcp(" ++ cfg.DBHost ++ ":" ++
        formatInt cfg.DBPort ++ ")/" ++ "?charset=utf8mb4&parseTime=True&loc=Local" := by
  apply String.ext
  simp [ensureMySQLDSN, Sprintf, sprintfAux]

theorem postgresDSN_eq (cfg : Config) :
    postgresDSN cfg =
      "host=" ++ cfg.DBHost ++ " port=" ++ formatInt cfg.DBPort ++ " user=" ++ cfg.DBUser ++
        " password=" ++ cfg.DBPassword ++ " dbname=" ++ cfg.DBName ++ " sslmode=" ++
        cfg.DBSSLMode ++ " TimeZone=Asia/Shanghai" := by
  apply String.ext
  simp [postgresDSN, Sprintf, sprintfAux]

theorem ensurePostgresDSN_eq (cfg : Config) :
    ensurePostgresDSN cfg =
      "host=" ++ cfg.DBHost ++ " port=" ++ formatInt cfg.DBPort ++ " user=" ++ cfg.DBUser ++
        " password=" ++ cfg.DBPassword ++ " dbname=postgres sslmode=" ++ cfg.DBSSLMode := by
  apply String.ext
  simp [ensurePostgresDSN, Sprintf, sprintfAux]

theorem openDialector_ok {d : Drivers} {dialector dial : Dialector}
    (h : openDialector d dialector = .ok dial) : dial = dialector := by
  unfold openDialector at h
  split at h
  · simp at h
  · simp only [Except.ok.injEq] at h
    exact h.symm

/-- C7, as stated, fails: for a MySQL configuration `initDB` opens the database
on a string whose query part is not `?charset=utf8mb4&parseTime=true`: it spells
`parseTime=True` and carries the further parameter `loc=Local`. -/
theorem mysql_dsn_differs_from_spec :
    mysqlConfig.DBType = "mysql" ∧
    initDB readyDrivers mysqlConfig =
      .ok (.mysql "root:pw@tcp(db.local:3306)/orange?charset=utf8mb4&parseTime=True&loc=Local") ∧
    mysqlDSN mysqlConfig ≠
      mysqlConfig.DBUser ++ ":" ++ mysqlConfig.DBPassword ++ "@tcp(" ++ mysqlConfig.DBHost ++
        ":" ++ formatInt mysqlConfig.DBPort ++ ")/" ++ mysqlConfig.DBName ++
        "?charset=utf8mb4&parseTime=true" :=
  ⟨rfl, by rfl, by decide⟩

/-- C7, amended: for every configuration with engine kind `"mysql"`, the string
on which `initDB` opens the database is exactly user `:` password `@tcp(` host
`:` decimal port `)/` dbname `?charset=utf8mb4&parseTime=True&loc=Local`;
`initDB` never succeeds on another string and does succeed on it when the
optional create-database step and the driver raise no error; the string of
`ensureMySQLDatabase` is the same with an empty database name. -/
theorem mysql_dsn_exact (d : Drivers) (cfg : Config) (hkind : cfg.DBType = "mysql") :
    (∀ dial, initDB d cfg = .ok dial →
      dial = .mysql (cfg.DBUser ++ ":" ++ cfg.DBPassword ++ "@tcp(" ++ cfg.DBHost ++ ":" ++
        formatInt cfg.DBPort ++ ")/" ++ cfg.DBName ++
        "?charset=utf8mb4&parseTime=True&loc=Local")) ∧
    ((cfg.DBAutoCreate = false ∨ ensureMySQLDatabase d cfg = none) →
      d.gormOpen (.mysql (mysqlDSN cfg)) = none →
      initDB d cfg = .ok (.mysql (cfg.DBUser ++ ":" ++ cfg.DBPassword ++ "@tcp(" ++
        cfg.DBHost ++ ":" ++ formatInt cfg.DBPort ++ ")/" ++ cfg.DBName ++
        "?charset=utf8mb4&parseTime=True&loc=Local"))) ∧
    ensureMySQLDSN cfg =
      cfg.DBUser ++ ":" ++ cfg.DBPassword ++ "@tcp(" ++ cfg.DBHost ++ ":" ++
        formatInt cfg.DBPort ++ ")/" ++ "?charset=utf8mb4&parseTime=True&loc=Local" := by
  refine ⟨?_, ?_, ensureMySQLDSN_eq cfg⟩
  · intro dial h
    rw [← mysqlDSN_eq]
    unfold initDB at h
    rw [if_pos hkind] at h
    split at h
    · simp at h
    · exact openDialector_ok h
  · intro hens hopen
    rw [← mysqlDSN_eq]
    unfold initDB
    rw [if_pos hkind]
    have hnone : (if cfg.DBAutoCreate then ensureMySQLDatabase d cfg else none) = none := by
      rcases hens with h | h
      · simp [h]
      · simp [h]
    rw [hnone]
    simp [openDialector, hopen]

/-- C7, amended, at a MySQL configuration on drivers that raise no error. -/
theorem mysql_dsn_exact_witness :
    initDB readyDrivers mysqlConfig =
      .ok (.mysql ("root" ++ ":" ++ "pw" ++ "@tcp(" ++ "db.local" ++ ":" ++ formatInt 3306 ++
        ")/" ++ "orange" ++ "?charset=utf8mb4&parseTime=True&loc=Local")) :=
  (mysql_dsn_exact readyDrivers mysqlConfig rfl).2.1 (Or.inr (by decide)) (by decide)

/-- C8, as stated, fails: for a PostgreSQL configuration `initDB` opens the
database on a string that has a seventh pair, ` TimeZone=Asia/Shanghai`, after
the six named ones. -/
theorem postgres_dsn_differs_from_spec :
    postgresConfig.DBType = "postgres" ∧
    initDB readyDrivers postgresConfig =
      .ok (.postgres ("host=db.local port=5432 user=orange password=pw dbname=cloud " ++
        "sslmode=disable TimeZone=Asia/Shanghai")) ∧
    postgresDSN postgresConfig ≠
      "host=" ++ postgresConfig.DBHost ++ " port=" ++ formatInt postgresConfig.DBPort ++
        " user=" ++ postgresConfig.DBUser ++ " password=" ++ postgresConfig.DBPassword ++
        " dbname=" ++ postgresConfig.DBName ++ " sslmode=" ++ postgresConfig.DBSSLMode :=
  ⟨rfl, by rfl, by decide⟩

/-- C8, amended: for every configuration with engine kind `"postgres"`, the
string on which `initDB` opens the database is exactly the six pairs `host=`,
`port=`, `user=`, `password=`, `dbname=`, `sslmode=` in this order, separated by
single spaces, followed by ` TimeZone=Asia/Shanghai`; `initDB` never succeeds on
another string and does succeed on it when the optional create-database step and
the driver raise no error; the string of `ensurePostgresDatabase` is the six
pairs alone, with `dbname=postgres`. -/
theorem postgres_dsn_exact (d : Drivers) (cfg : Config) (hkind : cfg.DBType = "postgres") :
    (∀ dial, initDB d cfg = .ok dial →
      dial = .postgres ("host=" ++ cfg.DBHost ++ " port=" ++ formatInt cfg.DBPort ++
        " user=" ++ cfg.DBUser ++ " password=" ++ cfg.DBPassword ++ " dbname=" ++
        cfg.DBName ++ " sslmode=" ++ cfg.DBSSLMode ++ " TimeZone=Asia/Shanghai")) ∧
    ((cfg.DBAutoCreate = false ∨ ensurePostgresDatabase d cfg = none) →
      d.gormOpen (.postgres (postgresDSN cfg)) = none →
      initDB d cfg = .ok (.postgres ("host=" ++ cfg.DBHost ++ " port=" ++
        formatInt cfg.DBPort ++ " user=" ++ cfg.DBUser ++ " password=" ++ cfg.DBPassword ++
        " dbname=" ++ cfg.DBName ++ " sslmode=" ++ cfg.DBSSLMode ++
        " TimeZone=Asia/Shanghai"))) ∧
    ensurePostgresDSN cfg =
      "host=" ++ cfg.DBHost ++ " port=" ++ formatInt cfg.DBPort ++ " user=" ++ cfg.DBUser ++
        " password=" ++ cfg.DBPassword ++ " dbname=postgres sslmode=" ++ cfg.DBSSLMode := by
  have hne : cfg.DBType ≠ "mysql" := by
    rw [hkind]
    decide
  refine ⟨?_, ?_, ensurePostgresDSN_eq cfg⟩
  · intro dial h
    rw [← postgresDSN_eq]
    unfold initDB at h
    rw [if_neg hne, if_pos hkind] at h
    split at h
    · simp at h
    · exact openDialector_ok h
  · intro hens hopen
    rw [← postgresDSN_eq]
    unfold initDB
    rw [if_neg hne, if_pos hkind]
    have hnone : (if cfg.DBAutoCreate then ensurePostgresDatabase d cfg else none) = none := by
      rcases hens with h | h
      · simp [h]
      · simp [h]
    rw [hnone]
    simp [openDialector, hopen]

/-- C8, amended, at a PostgreSQL configuration on drivers that raise no error. -/
theorem postgres_dsn_exact_witness :
    initDB readyDrivers postgresConfig =
      .ok (.postgres ("host=" ++ "db.local" ++ " port=" ++ formatInt 5432 ++ " user=" ++
        "orange" ++ " password=" ++ "pw" ++ " dbname=" ++ "cloud" ++ " sslmode=" ++
        "disable" ++ " TimeZone=Asia/Shanghai")) :=
  (postgres_dsn_exact readyDrivers postgresConfig rfl).2.1 (Or.inr (by decide)) (by decide)

/-! ## C10: the admin gate of `UserHandler` -/

theorem ensureAdmin_of_not_admin {P B : Type} (c : Context B) (h : c.role ≠ "admin") :
    (ensureAdmin c : Bool × List (Response P)) =
      (false, [.Error .CodeForbidden "权限不足"]) := by
  simp [ensureAdmin, h]

/-- C10: for a request whose role is not exactly `"admin"`, each of `List`,
`Create`, `Update`, `Delete` and `ResetPassword` writes the single reply
Forbidden with message 权限不足 and makes no call on the auth service, whatever
the query, the path parameters and the body are (parsable or not). -/
theorem non_admin_forbidden {P : Type} (svc : AuthService P) (role : String) (userID : Int)
    (query : String → Option String) (param : String → String)
    (createBody : Except String CreateUserRequest)
    (updateBody : Except String UpdateUserRequest)
    (resetBody : Except String ResetPasswordRequest)
    (hrole : role ≠ "admin") :
    (UserHandler.List svc (⟨role, userID, query, param, createBody⟩ : Context _)).responses =
        [.Error .CodeForbidden "权限不足"] ∧
    (UserHandler.List svc (⟨role, userID, query, param, createBody⟩ : Context _)).calls = [] ∧
    (UserHandler.Create svc ⟨role, userID, query, param, createBody⟩).responses =
        [.Error .CodeForbidden "权限不足"] ∧
    (UserHandler.Create svc ⟨role, userID, query, param, createBody⟩).calls = [] ∧
    (UserHandler.Update svc ⟨role, userID, query, param, updateBody⟩).responses =
        [.Error .CodeForbidden "权限不足"] ∧
    (UserHandler.Update svc ⟨role, userID, query, param, updateBody⟩).calls = [] ∧
    (UserHandler.Delete svc (⟨role, userID, query, param, updateBody⟩ : Context _)).responses =
        [.Error .CodeForbidden "权限不足"] ∧
    (UserHandler.Delete svc (⟨role, userID, query, param, updateBody⟩ : Context _)).calls =
        [] ∧
    (UserHandler.ResetPassword svc ⟨role, userID, query, param, resetBody⟩).responses =
        [.Error .CodeForbidden "权限不足"] ∧
    (UserHandler.ResetPassword svc ⟨role, userID, query, param, resetBody⟩).calls = [] := by
  refine ⟨?_, ?_, ?_, ?_, ?_, ?_, ?_, ?_, ?_, ?_⟩
  · unfold UserHandler.List
    rw [ensureAdmin_of_not_admin _ hrole]
  · unfold UserHandler.List
    rw [ensureAdmin_of_not_admin _ hrole]
  · unfold UserHandler.Create
    rw [ensureAdmin_of_not_admin _ hrole]
  · unfold UserHandler.Create
    rw [ensureAdmin_of_not_admin _ hrole]
  · unfold UserHandler.Update
    rw [ensureAdmin_of_not_admin _ hrole]
  · unfold UserHandler.Update
    rw [ensureAdmin_of_not_admin _ hrole]
  · unfold UserHandler.Delete
    rw [ensureAdmin_of_not_admin _ hrole]
  · unfold UserHandler.Delete
    rw [ensureAdmin_of_not_admin _ hrole]
  · unfold UserHandler.ResetPassword
    rw [ensureAdmin_of_not_admin _ hrole]
  · unfold UserHandler.ResetPassword
    rw [ensureAdmin_of_not_admin _ hrole]

/-- C10 at a request of role `"user"` whose id does not parse and whose body
does not decode: the reply is Forbidden, not a parameter error. -/
theorem non_admin_forbidden_witness :
    (UserHandler.Update openAuthService
        ⟨"user", 7, noQuery, badIdParam, .error "unexpected end of JSON input"⟩).responses =
      [.Error .CodeForbidden "权限不足"] ∧
    (UserHandler.Delete openAuthService
        (⟨"user", 7, noQuery, badIdParam, .error "unexpected end of JSON input"⟩ :
          Context UpdateUserRequest)).calls = [] :=
  have h := non_admin_forbidden openAuthService "user" 7 noQuery badIdParam
    (.error "unexpected end of JSON input") (.error "unexpected end of JSON input")
    (.error "unexpected end of JSON input") (by decide)
  ⟨h.2.2.2.2.1, h.2.2.2.2.2.2.2.1⟩

/-! ## C5: one result per requested table, in request order -/

theorem syncTable_tableName {σ : Type} (L : LocalStore) (E : RemoteEngine σ) (batchSize : Nat)
    (st : LoopState σ) (table : String) :
    (syncTable L E batchSize st table).1.tableName = table := by
  unfold syncTable
  split
  · rfl
  · split
    · rfl
    · split
      · rfl
      · rfl
      · split <;> rfl

theorem syncLoop_tableNames {σ : Type} (L : LocalStore) (E : RemoteEngine σ) (batchSize : Nat)
    (tables : List String) :
    ∀ st : LoopState σ, (syncLoop L E batchSize st tables).map (·.tableName) = tables := by
  induction tables with
  | nil => intro st; rfl
  | cons t ts ih =>
    intro st
    simp only [syncLoop, List.map_cons, syncTable_tableName, ih]

theorem SyncTables_tableNames {σ : Type} (L : LocalStore) (E : RemoteEngine σ)
    (batchSize : Nat) (cfg : SyncConfig) (tables : List String) (rs : List TableSyncResult)
    (h : SyncTables L E batchSize cfg tables = (rs, none)) :
    rs.map (·.tableName) = tables := by
  unfold SyncTables at h
  split at h
  · simp at h
  · simp only [Prod.mk.injEq, and_true] at h
    rw [← h]
    exact syncLoop_tableNames L E batchSize tables _

theorem Execute_body_of_success {R : Type} (w : World R) (req : ExecuteRequest)
    (hreq : req.failed = []) (rs : List R)
    (hok : w.syncService.SyncTables req.toConfig (req.Tables.getD []) = (rs, none)) :
    (Execute w (.ok req)).body =
      [("code", .int 0), ("data", .results rs), ("message", .str "同步完成")] := by
  unfold Execute
  rw [ShouldBindJSON_ok _ _ req hreq]
  simp only [hok]

/-- C5: `SyncTables` (as the design document describes it) completes without a
top-level error whenever the connection opens, and then returns one result per
requested table name, the i-th result being the one for the i-th name; and
`Execute` passes the request's table list to `SyncTables` unchanged and returns
its result sequence unchanged as `data`. -/
theorem one_result_per_table {σ R : Type} (L : LocalStore) (E : RemoteEngine σ)
    (batchSize : Nat) (cfg : SyncConfig) (names : List String) (w : World R)
    (req : ExecuteRequest) (tables : List String) (hreq : req.toConfig.complete)
    (htables : req.Tables = some tables) :
    (∀ conn, E.connect cfg = .ok conn →
      ∃ rs, SyncTables L E batchSize cfg names = (rs, none)) ∧
    (∀ rs, SyncTables L E batchSize cfg names = (rs, none) →
      rs.length = names.length ∧
      ∀ i (hi : i < names.length), (rs[i]?).map (·.tableName) = some (names.get ⟨i, hi⟩)) ∧
    (Execute w (.ok req)).calls = [.SyncTables req.toConfig tables] ∧
    (∀ rs, w.syncService.SyncTables req.toConfig tables = (rs, none) →
      (Execute w (.ok req)).body.lookup "data" = some (.results rs)) := by
  have hf : req.failed = [] :=
    (executeRequest_failed_nil_iff req).2 ⟨hreq, by simp [htables]⟩
  have hget : req.Tables.getD [] = tables := by simp [htables]
  refine ⟨?_, ?_, ?_, ?_⟩
  · intro conn hconn
    exact ⟨syncLoop L E batchSize { conn := conn, lost := none } names,
      by simp [SyncTables, hconn]⟩
  · intro rs hrs
    have hmap := SyncTables_tableNames L E batchSize cfg names rs hrs
    have hlen : rs.length = names.length := by
      rw [← hmap, List.length_map]
    refine ⟨hlen, ?_⟩
    intro i hi
    have h1 : (rs.map (·.tableName))[i]? = names[i]? := by rw [hmap]
    rw [List.getElem?_map] at h1
    rw [h1]
    simp [List.getElem?_eq_getElem hi]
  · rw [Execute_calls, ShouldBindJSON_ok _ _ req hf]
    simp only [hget]
  · intro rs hrs
    rw [← hget] at hrs
    rw [Execute_body_of_success w req hf rs hrs]
    simp [List.lookup]

/-- C5 at the request for `orders` and `missing_tbl`: `Execute` returns two
results, in that order, the three rows of `orders` copied. -/
theorem one_result_per_table_witness :
    (Execute ⟨emptyEnv, shopService⟩ (.ok ordersRequest)).calls =
      [.SyncTables ordersRequest.toConfig ["orders", "missing_tbl"]] ∧
    (Execute ⟨emptyEnv, shopService⟩ (.ok ordersRequest)).body.lookup "data" =
      some (.results
        [{ tableName := "orders", rowsCopied := 3, status := .success, errorDetail := none },
         { tableName := "missing_tbl", rowsCopied := 0, status := .skippedNoLocalTable,
           errorDetail := none }]) :=
  have h := one_result_per_table shopStore cloudEngine 2 ordersRequest.toConfig
    ["orders", "missing_tbl"] ⟨emptyEnv, shopService⟩ ordersRequest ["orders", "missing_tbl"]
    (by decide) rfl
  ⟨h.2.2.1, h.2.2.2 _ (by decide)⟩

/-! ## `strconv` on decimal numerals -/

theorem isDigit_iff (c : Char) : isDigit c = true ↔ 48 ≤ c.toNat ∧ c.toNat ≤ 57 := by
  simp [isDigit]

theorem digitOf_of_isDigit {c : Char} (h : isDigit c = true) :
    digitOf c = some (c.toNat - 48) ∧ c.toNat - 48 < 10 := by
  have h' := (isDigit_iff c).1 h
  refine ⟨by simp [digitOf, h], by omega⟩

theorem digitOf_of_not_isDigit {c : Char} (h : isDigit c = false) :
    digitOf c = none ∨ ∃ d, digitOf c = some d ∧ 10 ≤ d := by
  unfold digitOf
  rw [h]
  simp only [Bool.false_eq_true, if_false]
  split
  · right
    exact ⟨_, rfl, by omega⟩
  · left
    rfl

theorem le_decimalValue (ds : List Char) : ∀ n, n ≤ decimalValue ds n := by
  induction ds with
  | nil => intro n; exact Nat.le_refl n
  | cons c cs ih =>
    intro n
    have := ih (n * 10 + (c.toNat - 48))
    simp only [decimalValue]
    omega

theorem parseUintLoop_exact (ds : List Char) :
    ∀ n, ds.all isDigit = true → decimalValue ds n < 18446744073709551616 →
      parseUintLoop ((2 ^ 64 - 1) / 10 + 1) (2 ^ 64 - 1) ds n = (decimalValue ds n, none) := by
  induction ds with
  | nil => intro n _ _; rfl
  | cons c cs ih =>
    intro n hall hlt
    simp only [List.all_cons, Bool.and_eq_true] at hall
    obtain ⟨hd, hd10⟩ := digitOf_of_isDigit hall.1
    have hle := le_decimalValue cs (n * 10 + (c.toNat - 48))
    simp only [decimalValue] at hlt ⊢
    have hn : n * 10 + (c.toNat - 48) < 18446744073709551616 := by omega
    rw [parseUintLoop, hd]
    norm_num
    have h1 : ¬ (1844674407370955162 ≤ n) := by omega
    have h2 : n * 10 % 18446744073709551616 = n * 10 := Nat.mod_eq_of_lt (by omega)
    have h3 : (n * 10 + (c.toNat - 48)) % 18446744073709551616 = n * 10 + (c.toNat - 48) :=
      Nat.mod_eq_of_lt hn
    simp only [h2, h3]
    rw [if_neg (by omega), if_neg h1, if_neg (by omega)]
    have := ih (n * 10 + (c.toNat - 48)) hall.2 hlt
    norm_num at this
    exact this

theorem parseUintLoop_saturates (ds : List Char) :
    ∀ n, ds.all isDigit = true → n < 18446744073709551616 →
      18446744073709551616 ≤ decimalValue ds n →
      parseUintLoop ((2 ^ 64 - 1) / 10 + 1) (2 ^ 64 - 1) ds n =
        (18446744073709551615, some .ErrRange) := by
  induction ds with
  | nil =>
    intro n _ hn hge
    simp only [decimalValue] at hge
    omega
  | cons c cs ih =>
    intro n hall hn hge
    simp only [List.all_cons, Bool.and_eq_true] at hall
    obtain ⟨hd, hd10⟩ := digitOf_of_isDigit hall.1
    simp only [decimalValue] at hge
    rw [parseUintLoop, hd]
    norm_num
    rw [if_neg (by omega)]
    by_cases h1 : 1844674407370955162 ≤ n
    · rw [if_pos h1]
    · rw [if_neg h1]
      have h2 : n * 10 % 18446744073709551616 = n * 10 := Nat.mod_eq_of_lt (by omega)
      simp only [h2]
      by_cases h3 : n * 10 + (c.toNat - 48) < 18446744073709551616
      · have h4 : (n * 10 + (c.toNat - 48)) % 18446744073709551616 = n * 10 + (c.toNat - 48) :=
          Nat.mod_eq_of_lt h3
        simp only [h4]
        rw [if_neg (by omega)]
        have := ih (n * 10 + (c.toNat - 48)) hall.2 h3 hge
        norm_num at this
        exact this
      · have h4 : (n * 10 + (c.toNat - 48)) % 18446744073709551616 =
            n * 10 + (c.toNat - 48) - 18446744073709551616 := by
          rw [Nat.mod_eq_sub_mod (by omega)]
          exact Nat.mod_eq_of_lt (by omega)
        simp only [h4]
        rw [if_pos (by omega)]

theorem parseUintLoop_malformed (ds : List Char) :
    ∀ n, ds.all isDigit = false →
      (parseUintLoop ((2 ^ 64 - 1) / 10 + 1) (2 ^ 64 - 1) ds n).2 ≠ none := by
  induction ds with
  | nil => intro n h; simp at h
  | cons c cs ih =>
    intro n hall
    rw [parseUintLoop]
    by_cases hc : isDigit c = true
    · obtain ⟨hd, hd10⟩ := digitOf_of_isDigit hc
      have hcs : cs.all isDigit = false := by
        simpa [List.all_cons, hc] using hall
      rw [hd]
      dsimp only
      rw [if_neg (by omega)]
      split
      · simp
      · split
        · simp
        · exact ih _ hcs
    · have hc' : isDigit c = false := by simpa using hc
      rcases digitOf_of_not_isDigit hc' with h | ⟨d, h, hd⟩
      · rw [h]
        simp
      · rw [h]
        dsimp only
        rw [if_pos hd]
        simp

theorem atoiLoop_exact (ds : List Char) :
    ∀ n, ds.all isDigit = true → atoiLoop ds n = some (decimalValue ds n) := by
  induction ds with
  | nil => intro n _; rfl
  | cons c cs ih =>
    intro n hall
    simp only [List.all_cons, Bool.and_eq_true] at hall
    simp only [atoiLoop, decimalValue, hall.1, if_true]
    exact ih _ hall.2

theorem atoiLoop_malformed (ds : List Char) :
    ∀ n, ds.all isDigit = false → atoiLoop ds n = none := by
  induction ds with
  | nil => intro n h; simp at h
  | cons c cs ih =>
    intro n hall
    by_cases hc : isDigit c = true
    · have hcs : cs.all isDigit = false := by
        simpa [List.all_cons, hc] using hall
      simp only [atoiLoop, hc, if_true]
      exact ih _ hcs
    · simp [atoiLoop, hc]

theorem decimalValue_lt (ds : List Char) :
    ∀ n, ds.all isDigit = true → decimalValue ds n < (n + 1) * 10 ^ ds.length := by
  induction ds with
  | nil => intro n _; simp [decimalValue]
  | cons c cs ih =>
    intro n hall
    simp only [List.all_cons, Bool.and_eq_true] at hall
    have hd := (digitOf_of_isDigit hall.1).2
    have := ih (n * 10 + (c.toNat - 48)) hall.2
    simp only [decimalValue, List.length_cons]
    calc decimalValue cs (n * 10 + (c.toNat - 48))
        < (n * 10 + (c.toNat - 48) + 1) * 10 ^ cs.length := this
      _ ≤ ((n + 1) * 10) * 10 ^ cs.length := Nat.mul_le_mul_right _ (by omega)
      _ = (n + 1) * 10 ^ (cs.length + 1) := by rw [Nat.pow_succ]; ring

theorem length_le_utf8ByteSize_go (cs : List Char) : cs.length ≤ String.utf8ByteSize.go cs := by
  induction cs with
  | nil => simp [String.utf8ByteSize.go]
  | cons c cs ih =>
    have := c.utf8Size_pos
    simp only [String.utf8ByteSize.go, List.length_cons]
    omega

theorem length_le_utf8ByteSize (s : String) : s.data.length ≤ s.utf8ByteSize := by
  cases s with
  | mk cs => exact length_le_utf8ByteSize_go cs

theorem ParseUint_digits (digits : List Char) (hne : digits ≠ [])
    (hall : digits.all isDigit = true) :
    ParseUint digits =
      if decimalValue digits 0 < 18446744073709551616 then (decimalValue digits 0, none)
      else (18446744073709551615, some .ErrRange) := by
  unfold ParseUint
  rw [if_neg hne]
  split
  · rename_i hlt
    exact parseUintLoop_exact digits 0 hall hlt
  · rename_i hge
    exact parseUintLoop_saturates digits 0 hall (by omega) (by omega)

theorem ParseInt_digits (s : String) (c : Char) (rest digits : List Char)
    (hs : s.data = c :: rest)
    (hd : (if c = '+' ∨ c = '-' then rest else c :: rest) = digits)
    (hne : digits ≠ []) (hall : digits.all isDigit = true) :
    ParseInt s =
      if c = '-' then
        (if 9223372036854775808 < decimalValue digits 0 then
          (-9223372036854775808, some .ErrRange)
         else (-(decimalValue digits 0 : Int), none))
      else
        (if 9223372036854775808 ≤ decimalValue digits 0 then
          (9223372036854775807, some .ErrRange)
         else ((decimalValue digits 0 : Int), none)) := by
  unfold ParseInt
  rw [hs]
  have hU := ParseUint_digits _ hne hall
  simp only [Bool.or_eq_true, beq_iff_eq, hd]
  rw [hU]
  generalize decimalValue digits 0 = un
  by_cases hlt : un < 18446744073709551616
  · rw [if_pos hlt]
    by_cases hm : c = '-'
    · by_cases h1 : 9223372036854775808 < un
      · norm_num [intSize, hm, h1]
      · norm_num [intSize, hm, h1]
    · by_cases h1 : 9223372036854775808 ≤ un
      · norm_num [intSize, hm, h1]
      · norm_num [intSize, hm, h1]
  · rw [if_neg hlt]
    by_cases hm : c = '-'
    · have h1 : 9223372036854775808 < un := by omega
      norm_num [intSize, hm, h1]
    · have h1 : 9223372036854775808 ≤ un := by omega
      norm_num [intSize, hm, h1]

theorem parseDecimal_some {s : String} {v : Int} (h : parseDecimal s = some v) :
    ∃ c rest digits, s.data = c :: rest ∧
      (if c = '+' ∨ c = '-' then rest else c :: rest) = digits ∧
      digits ≠ [] ∧ digits.all isDigit = true ∧
      v = if c = '-' then -(decimalValue digits 0 : Int) else (decimalValue digits 0 : Int) := by
  unfold parseDecimal at h
  split at h
  · simp at h
  · rename_i c rest hs
    dsimp only at h
    by_cases hcond : (if c = '+' ∨ c = '-' then rest else c :: rest) ≠ [] ∧
        (if c = '+' ∨ c = '-' then rest else c :: rest).all isDigit = true
    · rw [if_pos hcond] at h
      simp only [Option.some.injEq] at h
      exact ⟨c, rest, _, hs, rfl, hcond.1, hcond.2, h.symm⟩
    · rw [if_neg hcond] at h
      simp at h

theorem Atoi_fast_digits (s : String) (c : Char) (rest digits : List Char)
    (hs : s.data = c :: rest)
    (hd : (if c = '+' ∨ c = '-' then rest else c :: rest) = digits)
    (hne : digits ≠ []) (hall : digits.all isDigit = true)
    (hlen : 0 < s.utf8ByteSize ∧ s.utf8ByteSize < 19) :
    Atoi s = (if c = '-' then -(decimalValue digits 0 : Int) else (decimalValue digits 0 : Int),
      none) := by
  have hd' : (if c = '-' ∨ c = '+' then rest else c :: rest) = digits := by
    rw [← hd]
    by_cases h1 : c = '+' <;> by_cases h2 : c = '-' <;> simp [h1, h2]
  have hpos : ¬ digits.length < 1 := by
    cases digits with
    | nil => exact absurd rfl hne
    | cons x xs => simp
  unfold Atoi
  simp only [hlen, decide_True, Bool.and_self, if_true, hs, Bool.or_eq_true, beq_iff_eq, hd',
    atoiLoop_exact digits 0 hall, hpos, decide_False, Bool.and_false, Bool.false_eq_true,
    if_false]

theorem decimalValue_small (s : String) (c : Char) (rest digits : List Char)
    (hs : s.data = c :: rest)
    (hd : (if c = '+' ∨ c = '-' then rest else c :: rest) = digits)
    (hall : digits.all isDigit = true) (hlen : s.utf8ByteSize < 19) :
    decimalValue digits 0 < 1000000000000000000 := by
  have h1 := length_le_utf8ByteSize s
  rw [hs, List.length_cons] at h1
  have h2 : digits.length ≤ 18 := by
    rw [← hd]
    split
    · omega
    · simp only [List.length_cons]
      omega
  have h3 := decimalValue_lt digits 0 hall
  have h4 : 10 ^ digits.length ≤ 10 ^ 18 := Nat.pow_le_pow_right (by norm_num) h2
  norm_num at h3 h4
  omega

theorem Atoi_of_parseDecimal {s : String} {v : Int} (h : parseDecimal s = some v) :
    Atoi s =
      if 9223372036854775808 ≤ v then (9223372036854775807, some .ErrRange)
      else if v < -9223372036854775808 then (-9223372036854775808, some .ErrRange)
      else (v, none) := by
  obtain ⟨c, rest, digits, hs, hd, hne, hall, hv⟩ := parseDecimal_some h
  by_cases hlen : 0 < s.utf8ByteSize ∧ s.utf8ByteSize < 19
  · rw [Atoi_fast_digits s c rest digits hs hd hne hall hlen]
    have hsmall := decimalValue_small s c rest digits hs hd hall hlen.2
    rw [← hv]
    have h1 : ¬ (9223372036854775808 ≤ v) := by
      rw [hv]
      split <;> omega
    have h2 : ¬ (v < -9223372036854775808) := by
      rw [hv]
      split <;> omega
    rw [if_neg h1, if_neg h2]
  · have hslow : Atoi s = ParseInt s := by
      unfold Atoi
      have : (decide (0 < s.utf8ByteSize) && decide (s.utf8ByteSize < 19)) = false := by
        simpa using hlen
      simp only [this, Bool.false_eq_true, if_false]
    rw [hslow, ParseInt_digits s c rest digits hs hd hne hall, hv]
    by_cases hm : c = '-'
    · simp only [hm, if_true]
      split <;> rename_i h1
      · rw [if_neg (by omega), if_pos (by omega)]
      · rw [if_neg (by omega), if_neg (by omega)]
    · simp only [hm, if_false]
      split <;> rename_i h1
      · rw [if_pos (by omega)]
      · rw [if_neg (by omega), if_neg (by omega)]

theorem ParseInt_syntax_value (s : String) (h : (ParseInt s).2 = some .ErrSyntax) :
    (ParseInt s).1 = 0 := by
  unfold ParseInt at h ⊢
  cases hs : s.data with
  | nil => simp only [hs]
  | cons c rest =>
    simp only [hs] at h ⊢
    generalize ParseUint (if (c == '+' || c == '-') = true then rest else c :: rest) = r at h ⊢
    obtain ⟨un, e⟩ := r
    cases e with
    | none =>
      simp only at h ⊢
      split_ifs at h <;> simp at h
    | some e =>
      cases e with
      | ErrSyntax => simp only
      | ErrRange =>
        simp only at h ⊢
        split_ifs at h <;> simp at h

theorem Atoi_syntax_value (s : String) (h : (Atoi s).2 = some .ErrSyntax) : (Atoi s).1 = 0 := by
  unfold Atoi at h ⊢
  by_cases hfast : (decide (0 < s.utf8ByteSize) && decide (s.utf8ByteSize < 19)) = true
  · simp only [hfast, if_true] at h ⊢
    cases hs : s.data with
    | nil => simp only [hs]
    | cons c rest =>
      simp only [hs] at h ⊢
      generalize (if (c == '-' || c == '+') = true then rest else c :: rest) = digits at h ⊢
      by_cases hsign : ((c == '-' || c == '+') && decide (digits.length < 1)) = true
      · simp only [hsign, if_true]
      · simp only [hsign, Bool.false_eq_true, if_false] at h ⊢
        cases hl : atoiLoop digits 0 with
        | none => simp only [hl]
        | some n =>
          simp only [hl] at h
          simp at h
  · simp only [hfast, if_false] at h ⊢
    exact ParseInt_syntax_value s h

theorem parseUintLoop_range_value (ds : List Char) :
    ∀ n, (parseUintLoop ((2 ^ 64 - 1) / 10 + 1) (2 ^ 64 - 1) ds n).2 = some .ErrRange →
      (parseUintLoop ((2 ^ 64 - 1) / 10 + 1) (2 ^ 64 - 1) ds n).1 = 2 ^ 64 - 1 := by
  induction ds with
  | nil => intro n h; simp [parseUintLoop] at h
  | cons c cs ih =>
    intro n h
    rw [parseUintLoop] at h ⊢
    cases hd : digitOf c with
    | none => simp [hd] at h
    | some d =>
      simp only [hd] at h ⊢
      split_ifs at h ⊢
      · simp at h
      · rfl
      · rfl
      · exact ih _ h

theorem ParseInt_malformed (s : String) (c : Char) (rest digits : List Char)
    (hs : s.data = c :: rest)
    (hd : (if c = '+' ∨ c = '-' then rest else c :: rest) = digits)
    (hbad : digits = [] ∨ digits.all isDigit = false) :
    (ParseInt s).2 ≠ none := by
  unfold ParseInt
  simp only [hs, Bool.or_eq_true, beq_iff_eq, hd]
  have hU : (ParseUint digits).2 ≠ none := by
    unfold ParseUint
    rcases hbad with h | h
    · simp [h]
    · have hne : digits ≠ [] := by
        intro h0
        rw [h0] at h
        simp at h
      rw [if_neg hne]
      exact parseUintLoop_malformed digits 0 h
  have hR : (ParseUint digits).2 = some .ErrRange → (ParseUint digits).1 = 2 ^ 64 - 1 := by
    unfold ParseUint
    split
    · simp
    · exact parseUintLoop_range_value digits 0
  generalize ParseUint digits = r at hU hR ⊢
  obtain ⟨un, e⟩ := r
  cases e with
  | none => simp at hU
  | some e =>
    cases e with
    | ErrSyntax => simp
    | ErrRange =>
      have hun : un = 2 ^ 64 - 1 := hR rfl
      subst hun
      by_cases hm : c = '-'
      · norm_num [intSize, hm]
        simp
      · norm_num [intSize, hm]
        simp

theorem Atoi_malformed {s : String} (h : parseDecimal s = none) : (Atoi s).2 ≠ none := by
  unfold parseDecimal at h
  cases hs : s.data with
  | nil =>
    have hlen : s.utf8ByteSize = 0 := by
      cases s with
      | mk cs =>
        simp only at hs
        subst hs
        rfl
    unfold Atoi ParseInt
    simp [hlen, hs]
  | cons c rest =>
    simp only [hs] at h
    have hbad : (if c = '+' ∨ c = '-' then rest else c :: rest) = [] ∨
        (if c = '+' ∨ c = '-' then rest else c :: rest).all isDigit = false := by
      by_contra hcon
      push_neg at hcon
      have hall : (if c = '+' ∨ c = '-' then rest else c :: rest).all isDigit = true := by
        simpa using hcon.2
      rw [if_pos ⟨hcon.1, hall⟩] at h
      simp at h
    by_cases hfast : (decide (0 < s.utf8ByteSize) && decide (s.utf8ByteSize < 19)) = true
    · unfold Atoi
      have hd' : (if c = '-' ∨ c = '+' then rest else c :: rest) =
          (if c = '+' ∨ c = '-' then rest else c :: rest) := by
        by_cases h1 : c = '+' <;> by_cases h2 : c = '-' <;> simp [h1, h2]
      simp only [hfast, if_true, hs, Bool.or_eq_true, beq_iff_eq, hd']
      generalize hdig : (if c = '+' ∨ c = '-' then rest else c :: rest) = digits at hbad ⊢
      rcases hbad with h0 | h0
      · subst h0
        have hsigned : c = '-' ∨ c = '+' := by
          by_contra hns
          have : ¬ (c = '+' ∨ c = '-') := fun h' => hns (h'.symm)
          rw [if_neg this] at hdig
          simp at hdig
        simp [hsigned]
      · rw [atoiLoop_malformed digits 0 h0]
        split_ifs <;> simp
    · unfold Atoi
      simp only [hfast, Bool.false_eq_true, if_false]
      exact ParseInt_malformed s c rest _ hs rfl hbad

theorem Atoi_short_no_range (s : String) (hlen : s.utf8ByteSize < 19) :
    (Atoi s).2 ≠ some .ErrRange := by
  unfold Atoi
  by_cases hfast : (decide (0 < s.utf8ByteSize) && decide (s.utf8ByteSize < 19)) = true
  · simp only [hfast, if_true]
    cases hs : s.data with
    | nil => simp
    | cons c rest =>
      simp only
      generalize (if (c == '-' || c == '+') = true then rest else c :: rest) = digits
      by_cases hsign : ((c == '-' || c == '+') && decide (digits.length < 1)) = true
      · simp only [hsign, if_true]
        simp
      · simp only [hsign, Bool.false_eq_true, if_false]
        cases hl : atoiLoop digits 0 with
        | none => simp
        | some n => simp
  · simp only [hfast, Bool.false_eq_true, if_false]
    have h0 : s.utf8ByteSize = 0 := by
      simp only [Bool.and_eq_true, decide_eq_true_eq, not_and] at hfast
      by_contra hne
      exact hfast (by omega) hlen
    have hdata : s.data = [] := by
      have := length_le_utf8ByteSize s
      rw [h0] at this
      exact List.length_eq_zero.1 (by omega)
    unfold ParseInt
    simp [hdata]

theorem Atoi_malformed_short {s : String} (h : parseDecimal s = none)
    (hlen : s.utf8ByteSize < 19) : Atoi s = (0, some .ErrSyntax) := by
  have h1 := Atoi_malformed h
  have h2 := Atoi_short_no_range s hlen
  have h3 := Atoi_syntax_value s
  generalize Atoi s = r at h1 h2 h3
  obtain ⟨v, e⟩ := r
  cases e with
  | none => simp at h1
  | some e =>
    cases e with
    | ErrSyntax =>
      have : v = 0 := h3 rfl
      subst this
      rfl
    | ErrRange => simp at h2

theorem ParseInt_range_value (s : String) (h : (ParseInt s).2 = some .ErrRange) :
    (ParseInt s).1 = 9223372036854775807 ∨ (ParseInt s).1 = -9223372036854775808 := by
  unfold ParseInt at h ⊢
  cases hs : s.data with
  | nil => simp [hs] at h
  | cons c rest =>
    simp only [hs] at h ⊢
    generalize ParseUint (if (c == '+' || c == '-') = true then rest else c :: rest) = r at h ⊢
    obtain ⟨un, e⟩ := r
    cases e with
    | none =>
      simp only at h ⊢
      split_ifs at h ⊢
      · left
        norm_num [intSize]
      · right
        norm_num [intSize]
    | some e =>
      cases e with
      | ErrSyntax => simp at h
      | ErrRange =>
        simp only at h ⊢
        split_ifs at h ⊢
        · left
          norm_num [intSize]
        · right
          norm_num [intSize]

theorem Atoi_range_value (s : String) (h : (Atoi s).2 = some .ErrRange) :
    (Atoi s).1 = 9223372036854775807 ∨ (Atoi s).1 = -9223372036854775808 := by
  by_cases hlen : s.utf8ByteSize < 19
  · exact absurd h (Atoi_short_no_range s hlen)
  · have hslow : Atoi s = ParseInt s := by
      unfold Atoi
      have : (decide (0 < s.utf8ByteSize) && decide (s.utf8ByteSize < 19)) = false := by
        simp [hlen]
      simp only [this, Bool.false_eq_true, if_false]
    rw [hslow] at h ⊢
    exact ParseInt_range_value s h

/-! ## C9: the port default of `GetConfig` -/

theorem GetConfig_dataField {R : Type} (w : World R) :
    (GetConfig w).dataField "port" =
        some (.int (if (Atoi (w.getenv "SYNC_DB_PORT")).1 = 0 then 5432
          else (Atoi (w.getenv "SYNC_DB_PORT")).1)) ∧
    (GetConfig w).dataField "db_type" = some (.str (w.getenv "SYNC_DB_TYPE")) ∧
    (GetConfig w).dataField "host" = some (.str (w.getenv "SYNC_DB_HOST")) ∧
    (GetConfig w).dataField "user" = some (.str (w.getenv "SYNC_DB_USER")) ∧
    (GetConfig w).dataField "password" = some (.str (w.getenv "SYNC_DB_PASSWORD")) ∧
    (GetConfig w).dataField "db_name" = some (.str (w.getenv "SYNC_DB_NAME")) ∧
    (GetConfig w).dataField "ssl_mode" = some (.str (w.getenv "SYNC_SSL_MODE")) := by
  refine ⟨?_, ?_, ?_, ?_, ?_, ?_, ?_⟩ <;>
    simp [GetConfig, Outcome.dataField, List.lookup]

/-- C9, as stated, fails: with `SYNC_DB_PORT` set to `9223372036854775808`, one
more than the largest `int`, `Atoi` fails (range error), so the claim gives
5432; `GetConfig` returns 9223372036854775807, which is neither 5432 nor the
integer the variable denotes. -/
theorem port_out_of_range_not_default :
    (Atoi (hugePortEnv "SYNC_DB_PORT")).2 = some .ErrRange ∧
    claimedPort (hugePortEnv "SYNC_DB_PORT") = 5432 ∧
    parseDecimal (hugePortEnv "SYNC_DB_PORT") = some 9223372036854775808 ∧
    (GetConfig ⟨hugePortEnv, agreeingService⟩).dataField "port" =
      some (.int 9223372036854775807) := by
  decide

/-- C9, amended: the port returned by `GetConfig` is never 0. It is 5432 when
`SYNC_DB_PORT` is unset or empty, when `Atoi` rejects it with a syntax error
(which it does for every value shorter than 19 bytes that is not an optional
sign followed by decimal digits), and when it is a decimal numeral denoting 0.
For a decimal numeral denoting `v ≠ 0` the port is `v` when `v` fits an `int`,
and otherwise the nearest bound, 9223372036854775807 or -9223372036854775808;
whenever `Atoi` reports a range error the port is one of these two bounds, not
5432. `Atoi` succeeds only on decimal numerals. The other six fields are the
corresponding `SYNC_*` values unchanged. -/
theorem getconfig_port_default {R : Type} (w : World R) :
    ∃ port : Int,
      (GetConfig w).dataField "port" = some (.int port) ∧
      port ≠ 0 ∧
      (w.getenv "SYNC_DB_PORT" = "" → port = 5432) ∧
      ((Atoi (w.getenv "SYNC_DB_PORT")).2 = some .ErrSyntax → port = 5432) ∧
      (parseDecimal (w.getenv "SYNC_DB_PORT") = none →
        (w.getenv "SYNC_DB_PORT").utf8ByteSize < 19 → port = 5432) ∧
      (∀ v, parseDecimal (w.getenv "SYNC_DB_PORT") = some v →
        (v = 0 → port = 5432) ∧
        (v ≠ 0 → -9223372036854775808 ≤ v → v ≤ 9223372036854775807 → port = v) ∧
        (9223372036854775807 < v → port = 9223372036854775807) ∧
        (v < -9223372036854775808 → port = -9223372036854775808)) ∧
      ((Atoi (w.getenv "SYNC_DB_PORT")).2 = some .ErrRange →
        port = 9223372036854775807 ∨ port = -9223372036854775808) ∧
      ((Atoi (w.getenv "SYNC_DB_PORT")).2 = none →
        ∃ v, parseDecimal (w.getenv "SYNC_DB_PORT") = some v) ∧
      (GetConfig w).dataField "db_type" = some (.str (w.getenv "SYNC_DB_TYPE")) ∧
      (GetConfig w).dataField "host" = some (.str (w.getenv "SYNC_DB_HOST")) ∧
      (GetConfig w).dataField "user" = some (.str (w.getenv "SYNC_DB_USER")) ∧
      (GetConfig w).dataField "password" = some (.str (w.getenv "SYNC_DB_PASSWORD")) ∧
      (GetConfig w).dataField "db_name" = some (.str (w.getenv "SYNC_DB_NAME")) ∧
      (GetConfig w).dataField "ssl_mode" = some (.str (w.getenv "SYNC_SSL_MODE")) := by
  have hG := GetConfig_dataField w
  refine ⟨_, hG.1, ?_, ?_, ?_, ?_, ?_, ?_, ?_, hG.2⟩
  · split_ifs with h0
    · decide
    · exact h0
  · intro hempty
    rw [hempty]
    decide
  · intro hsyn
    rw [if_pos (Atoi_syntax_value _ hsyn)]
  · intro hnone hshort
    rw [Atoi_malformed_short hnone hshort]
    decide
  · intro v hv
    have hA := Atoi_of_parseDecimal hv
    refine ⟨?_, ?_, ?_, ?_⟩
    · intro hv0
      subst hv0
      rw [hA]
      decide
    · intro hv0 hlo hhi
      have hval : Atoi (w.getenv "SYNC_DB_PORT") = (v, none) := by
        rw [hA, if_neg (by omega), if_neg (by omega)]
      rw [hval]
      exact if_neg hv0
    · intro hhi
      have hval : Atoi (w.getenv "SYNC_DB_PORT") =
          (9223372036854775807, some .ErrRange) := by
        rw [hA, if_pos (by omega)]
      rw [hval]
      decide
    · intro hlo
      have hval : Atoi (w.getenv "SYNC_DB_PORT") =
          (-9223372036854775808, some .ErrRange) := by
        rw [hA, if_neg (by omega), if_pos hlo]
      rw [hval]
      decide
  · intro hrange
    rcases Atoi_range_value _ hrange with h | h
    · left
      rw [h]
      decide
    · right
      rw [h]
      decide
  · intro hok
    cases hp : parseDecimal (w.getenv "SYNC_DB_PORT") with
    | none => exact absurd hok (Atoi_malformed hp)
    | some v => exact ⟨v, rfl⟩

/-! ## C11: an administrator cannot delete the account in use -/

theorem ParseInt_of_parseDecimal {s : String} {v : Int} (h : parseDecimal s = some v) :
    ParseInt s =
      if 9223372036854775808 ≤ v then (9223372036854775807, some .ErrRange)
      else if v < -9223372036854775808 then (-9223372036854775808, some .ErrRange)
      else (v, none) := by
  obtain ⟨c, rest, digits, hs, hd, hne, hall, hv⟩ := parseDecimal_some h
  rw [ParseInt_digits s c rest digits hs hd hne hall, hv]
  by_cases hm : c = '-'
  · simp only [hm, if_true]
    split <;> rename_i h1
    · rw [if_neg (by omega), if_pos (by omega)]
    · rw [if_neg (by omega), if_neg (by omega)]
  · simp only [hm, if_false]
    split <;> rename_i h1
    · rw [if_pos (by omega)]
    · rw [if_neg (by omega), if_neg (by omega)]

theorem ParseInt_of_not_decimal {s : String} (h : parseDecimal s = none) :
    (ParseInt s).2 ≠ none := by
  unfold parseDecimal at h
  cases hs : s.data with
  | nil =>
    unfold ParseInt
    simp [hs]
  | cons c rest =>
    simp only [hs] at h
    have hbad : (if c = '+' ∨ c = '-' then rest else c :: rest) = [] ∨
        (if c = '+' ∨ c = '-' then rest else c :: rest).all isDigit = false := by
      by_contra hcon
      push_neg at hcon
      have hall : (if c = '+' ∨ c = '-' then rest else c :: rest).all isDigit = true := by
        simpa using hcon.2
      rw [if_pos ⟨hcon.1, hall⟩] at h
      simp at h
    exact ParseInt_malformed s c rest _ hs rfl hbad

theorem ensureAdmin_of_admin {P B : Type} (c : Context B) (h : c.role = "admin") :
    (ensureAdmin c : Bool × List (Response P)) = (true, []) := by
  simp [ensureAdmin, h]

theorem Delete_of_unparsed {P B : Type} (svc : AuthService P) (c : Context B)
    (hadmin : c.role = "admin") (h : (ParseInt (c.param "id")).2 ≠ none) :
    (UserHandler.Delete svc c).responses = [.ParamError "无效的用户ID"] ∧
    (UserHandler.Delete svc c).calls = [] := by
  unfold UserHandler.Delete
  rw [ensureAdmin_of_admin c hadmin]
  generalize ParseInt (c.param "id") = r at h
  obtain ⟨id, e⟩ := r
  cases e with
  | none => exact absurd rfl h
  | some e => exact ⟨rfl, rfl⟩

theorem Delete_of_parsed {P B : Type} (svc : AuthService P) (c : Context B)
    (hadmin : c.role = "admin") (id : Int) (h : ParseInt (c.param "id") = (id, none)) :
    (id = c.userID →
      (UserHandler.Delete svc c).responses = [.ParamError "不能删除当前登录账号"] ∧
      (UserHandler.Delete svc c).calls = []) ∧
    (id ≠ c.userID →
      (UserHandler.Delete svc c).calls = [.DeleteUser id] ∧
      (UserHandler.Delete svc c).responses =
        [match svc.DeleteUser id with
         | some err => .InternalError err
         | none => .SuccessWithMessage "删除成功" none]) := by
  unfold UserHandler.Delete
  rw [ensureAdmin_of_admin c hadmin, h]
  constructor
  · intro heq
    dsimp only
    rw [if_pos heq]
    exact ⟨rfl, rfl⟩
  · intro hne
    dsimp only
    rw [if_neg hne]
    cases svc.DeleteUser id with
    | none => exact ⟨rfl, rfl⟩
    | some err => exact ⟨rfl, rfl⟩

/-- C11: for an admin request to `Delete`, let `id` be the path parameter. When
`id` is a base-10 numeral (optional sign, decimal digits) denoting an int64 `v`:
if `v` is the current user's id, the only reply is the parameter error
不能删除当前登录账号 and no call is made on the auth service; if `v` differs from
it, the auth service is called exactly once, `DeleteUser v`, and the reply is
the one for that call's outcome. When `id` is not such a numeral, or denotes an
integer outside int64, the only reply is the parameter error 无效的用户ID and no
call is made. -/
theorem delete_self_protection {P B : Type} (svc : AuthService P) (c : Context B)
    (hadmin : c.role = "admin") :
    (∀ v, parseDecimal (c.param "id") = some v →
        -9223372036854775808 ≤ v → v ≤ 9223372036854775807 → v = c.userID →
      (UserHandler.Delete svc c).responses = [.ParamError "不能删除当前登录账号"] ∧
      (UserHandler.Delete svc c).calls = []) ∧
    (∀ v, parseDecimal (c.param "id") = some v →
        -9223372036854775808 ≤ v → v ≤ 9223372036854775807 → v ≠ c.userID →
      (UserHandler.Delete svc c).calls = [.DeleteUser v] ∧
      (UserHandler.Delete svc c).responses =
        [match svc.DeleteUser v with
         | some err => .InternalError err
         | none => .SuccessWithMessage "删除成功" none]) ∧
    (parseDecimal (c.param "id") = none ∨
        (∃ v, parseDecimal (c.param "id") = some v ∧
          (v < -9223372036854775808 ∨ 9223372036854775807 < v)) →
      (UserHandler.Delete svc c).responses = [.ParamError "无效的用户ID"] ∧
      (UserHandler.Delete svc c).calls = []) := by
  refine ⟨?_, ?_, ?_⟩
  · intro v hv hlo hhi heq
    have hp : ParseInt (c.param "id") = (v, none) := by
      rw [ParseInt_of_parseDecimal hv, if_neg (by omega), if_neg (by omega)]
    exact (Delete_of_parsed svc c hadmin v hp).1 heq
  · intro v hv hlo hhi hne
    have hp : ParseInt (c.param "id") = (v, none) := by
      rw [ParseInt_of_parseDecimal hv, if_neg (by omega), if_neg (by omega)]
    exact (Delete_of_parsed svc c hadmin v hp).2 hne
  · intro hbad
    apply Delete_of_unparsed svc c hadmin
    rcases hbad with hnone | ⟨v, hv, hout⟩
    · exact ParseInt_of_not_decimal hnone
    · rw [ParseInt_of_parseDecimal hv]
      rcases hout with hlo | hhi
      · rw [if_neg (by omega), if_pos hlo]
        simp
      · rw [if_pos (by omega)]
        simp

/-- C11 at an administrator whose id is 7: deleting `7` is refused without a
call, deleting `8` calls `DeleteUser 8` once, and `abc` is not an id. -/
theorem delete_self_protection_witness :
    ((UserHandler.Delete openAuthService
        (⟨"admin", 7, noQuery, idParam "7", .error "EOF"⟩ : Context Unit)).responses =
      [.ParamError "不能删除当前登录账号"] ∧
     (UserHandler.Delete openAuthService
        (⟨"admin", 7, noQuery, idParam "7", .error "EOF"⟩ : Context Unit)).calls = []) ∧
    (UserHandler.Delete openAuthService
        (⟨"admin", 7, noQuery, idParam "8", .error "EOF"⟩ : Context Unit)).calls =
      [.DeleteUser 8] ∧
    (UserHandler.Delete openAuthService
        (⟨"admin", 7, noQuery, badIdParam, .error "EOF"⟩ : Context Unit)).responses =
      [.ParamError "无效的用户ID"] :=
  ⟨(delete_self_protection openAuthService
      (⟨"admin", 7, noQuery, idParam "7", .error "EOF"⟩ : Context Unit) rfl).1 7
      (by decide) (by decide) (by decide) rfl,
   ((delete_self_protection openAuthService
      (⟨"admin", 7, noQuery, idParam "8", .error "EOF"⟩ : Context Unit) rfl).2.1 8
      (by decide) (by decide) (by decide) (by decide)).1,
   ((delete_self_protection openAuthService
      (⟨"admin", 7, noQuery, badIdParam, .error "EOF"⟩ : Context Unit) rfl).2.2
      (Or.inl (by decide))).1⟩

end Orange
